import Mathlib

/-!
Verification development for `imgaug/augmentables/normalization.py`.

The Python module is shallowly embedded: Python values relevant to the
normalization engine become the inductive type `Value`, numpy ndarrays become
the structure `Arr` (dtype tag, shape, flattened rational data), and every
fallible Python function becomes a Lean function into `Except PyError _`,
where an `Except.error` result models a raised Python exception.

Floating-point rounding is out of scope: array elements are modelled as
rationals, and casts between float dtypes are value-preserving.  Dtypes are
tracked as tags so that dtype-restoration behavior remains observable.

External collaborator types (the on-image container classes, and the helpers
from `imgaug.imgaug` / `imgaug.dtypes`) are not part of the reviewed source
file; they are modelled from the spec where marked.
-/

/-- Kind character of a numpy dtype (`dtype.kind`): `f` float, `i` signed
integer, `u` unsigned integer, `b` bool, anything else kept verbatim. -/
inductive DKind where
  | f
  | i
  | u
  | b
  | other (s : String)
deriving DecidableEq, Repr

/-- A numpy dtype, reduced to the data this module observes: its kind and its
bit width. -/
structure Dtype where
  kind : DKind
  bits : Nat
deriving DecidableEq, Repr

def float32 : Dtype := ⟨DKind.f, 32⟩

def float64 : Dtype := ⟨DKind.f, 64⟩

def int32 : Dtype := ⟨DKind.i, 32⟩

/-- The Python exceptions this module can raise, with messages kept only
where a claim depends on their content. -/
inductive PyError where
  | valueError (msg : String)
  | assertionError (msg : String)
  | assertionFailed
  | typeError
  | attributeError
  | indexError
deriving DecidableEq, Repr

/-- Truncation toward zero, as numpy float-to-integer casting does. -/
def ratTrunc (q : ℚ) : ℤ :=
  if 0 ≤ q then ⌊q⌋ else ⌈q⌉

/-- Modelled from the spec: the value-level effect of a direct numpy `astype`
cast (spec section 4.5: values "are cast to `target_dtype`", a "direct cast,
not a clamped one").  Integer targets truncate toward zero and wrap modulo
2^bits (signed or unsigned), bool targets map nonzero to 1, float targets are
value-preserving (float rounding is outside this model). -/
def castValue (d : Dtype) (q : ℚ) : ℚ :=
  match d.kind with
  | DKind.f => q
  | DKind.other _ => q
  | DKind.b => if q = 0 then 0 else 1
  | DKind.u => ((ratTrunc q) % ((2 : ℤ) ^ d.bits) : ℤ)
  | DKind.i =>
      ((((ratTrunc q) + (2 : ℤ) ^ (d.bits - 1)) % ((2 : ℤ) ^ d.bits)
        - (2 : ℤ) ^ (d.bits - 1) : ℤ))

/-- A numpy ndarray: dtype tag, shape, and row-major flattened data. -/
structure Arr where
  dtype : Dtype
  shape : List Nat
  data : List ℚ
deriving DecidableEq, Repr

/-- The `ndim` of an ndarray. -/
def Arr.ndim (a : Arr) : Nat := a.shape.length

/-- Well-formedness of the flat representation: the data has exactly as many
entries as the shape prescribes, and every entry is a fixed point of the
dtype's own cast (it is actually representable in that dtype). -/
def Arr.wf (a : Arr) : Prop :=
  a.data.length = a.shape.prod ∧ ∀ q ∈ a.data, castValue a.dtype q = q

/-- Iteration over the first axis of an ndarray (`for row in a`), as the list
of sub-arrays.  On a 0-d array Python raises instead; call sites guard with
`ndim` assertions, so the 0-d result here is never observed. -/
def npRows (a : Arr) : List Arr :=
  match a.shape with
  | [] => []
  | n :: rest =>
      (List.range n).map
        (fun i => Arr.mk a.dtype rest ((a.data.drop (i * rest.prod)).take rest.prod))

/-- Python `np.array` applied to a list of equally-shaped arrays: stacks them into
one array with a new leading axis.  `np.array([])` is a float64 empty array.
The dtype is taken from the first element; in this module the operation is
only reached when all elements share one dtype. -/
def npStack (as : List Arr) : Arr :=
  match as with
  | [] => Arr.mk float64 [0] []
  | a :: _ => Arr.mk a.dtype (as.length :: a.shape) (as.map Arr.data).flatten

/-- Scalar lookup in the flattened data (`r[i]` on a 1-d array). -/
def npAt (a : Arr) (i : Nat) : Except PyError ℚ :=
  if i < a.data.length then Except.ok (a.data.getD i 0) else Except.error PyError.indexError

/-- Python `np.max` over all elements; raises on an empty array as numpy does. -/
def np_max (a : Arr) : Except PyError ℚ :=
  match a.data with
  | [] => Except.error (PyError.valueError "zero-size array to reduction operation maximum")
  | q :: rest => Except.ok (rest.foldl max q)

/-- A Python value, as observed by the normalization module.  Plain numbers
are rationals (Python `int`/`float`; float rounding is outside this model).
The on-image container classes and the leaf annotation classes are external
collaborators of the reviewed file; here they are constructors holding the
payload the module hands them, per the spec's collaborator contract (spec
section 6).  `selfIter` models the degenerate sequence-like value whose first
element is identical (same object) to the value itself, which cannot be built
as a finite `tup`/`list`; `obj s` models any other object with class name
`s`. -/
inductive Value where
  | none
  | num (q : ℚ)
  | str (s : String)
  | arr (a : Arr)
  | tup (xs : List Value)
  | list (xs : List Value)
  | selfIter
  | Keypoint (x y : Value)
  | BoundingBox (x1 y1 x2 y2 : Value)
  | Polygon (exterior : Arr)
  | KeypointsOnImage (keypoints : List Value) (shape : Value)
  | BoundingBoxesOnImage (bounding_boxes : List Value) (shape : Value)
  | PolygonsOnImage (polygons : List Value) (shape : Value)
  | HeatmapsOnImage (arr_0to1 : Arr) (shape : Value)
  | SegmentationMapOnImage (arr : Arr) (shape : Value) (nb_classes : Option ℚ)
  | obj (class_name : String)

/-- Python `value.__class__.__name__`. -/
def pyClassName : Value → String
  | Value.none => "NoneType"
  | Value.num q => if q.den = 1 then "int" else "float"
  | Value.str _ => "str"
  | Value.arr _ => "ndarray"
  | Value.tup _ => "tuple"
  | Value.list _ => "list"
  | Value.selfIter => "list"
  | Value.Keypoint _ _ => "Keypoint"
  | Value.BoundingBox _ _ _ _ => "BoundingBox"
  | Value.Polygon _ => "Polygon"
  | Value.KeypointsOnImage _ _ => "KeypointsOnImage"
  | Value.BoundingBoxesOnImage _ _ => "BoundingBoxesOnImage"
  | Value.PolygonsOnImage _ _ => "PolygonsOnImage"
  | Value.HeatmapsOnImage _ _ => "HeatmapsOnImage"
  | Value.SegmentationMapOnImage _ _ _ => "SegmentationMapOnImage"
  | Value.obj s => s

/-- Modelled from the spec: `imgaug.imgaug.is_single_number` (not under
`src/`), true exactly for plain Python numbers. -/
def is_single_number : Value → Bool
  | Value.num _ => true
  | _ => false

/-- Modelled from the spec: `imgaug.imgaug.is_np_array` (not under `src/`),
true exactly for numpy ndarrays. -/
def is_np_array : Value → Bool
  | Value.arr _ => true
  | _ => false

/-- Modelled from the spec: `imgaug.imgaug.is_string` (not under `src/`). -/
def is_string : Value → Bool
  | Value.str _ => true
  | _ => false

/-- Modelled from the spec: `imgaug.imgaug.is_iterable` (not under `src/`),
true for sequence-like values (lists, tuples, strings, ndarrays, and the
degenerate self-referential sequence). -/
def is_iterable : Value → Bool
  | Value.tup _ => true
  | Value.list _ => true
  | Value.str _ => true
  | Value.arr _ => true
  | Value.selfIter => true
  | _ => false

/-- A bare Python `assert cond`. -/
def assertProp (p : Prop) [Decidable p] : Except PyError Unit :=
  if p then Except.ok () else Except.error PyError.assertionFailed

/-- Python `len(value)`; raises `TypeError` on values without a length
(including 0-d ndarrays). -/
def pyLen : Value → Except PyError Nat
  | Value.arr a =>
      match a.shape with
      | [] => Except.error PyError.typeError
      | n :: _ => Except.ok n
  | Value.tup xs => Except.ok xs.length
  | Value.list xs => Except.ok xs.length
  | Value.str s => Except.ok s.length
  | Value.selfIter => Except.ok 1
  | _ => Except.error PyError.typeError

/-- Python iteration `[x for x in value]` as a list of element values.
Iterating the self-referential sequence would loop forever; every call site
in this module is guarded by a whitelist check that rejects it, so it is cut
off with an error here. -/
def iterElems : Value → Except PyError (List Value)
  | Value.tup xs => Except.ok xs
  | Value.list xs => Except.ok xs
  | Value.arr a => Except.ok ((npRows a).map Value.arr)
  | Value.str s => Except.ok (s.data.map (fun c => Value.str (String.mk [c])))
  | _ => Except.error PyError.typeError

/-- Python `value[i]` for sequences. -/
def pyIndex (v : Value) (i : Nat) : Except PyError Value := do
  let xs ← iterElems v
  match xs[i]? with
  | some x => Except.ok x
  | _ => Except.error PyError.indexError

/-- Python `value[:]` (shallow copy; equal as a value). -/
def pySliceAll : Value → Except PyError Value
  | Value.tup xs => Except.ok (Value.tup xs)
  | Value.list xs => Except.ok (Value.list xs)
  | Value.str s => Except.ok (Value.str s)
  | Value.arr a => Except.ok (Value.arr a)
  | _ => Except.error PyError.typeError

/-- Extract the ndarray behind a value; `AttributeError`/`TypeError` site
when Python would have choked on a non-array. -/
def asArr : Value → Except PyError Arr
  | Value.arr a => Except.ok a
  | _ => Except.error PyError.attributeError

/-- Python `value is None`. -/
def Value.isNone : Value → Bool
  | Value.none => true
  | _ => false

mutual

/-- Depth-first search for the first nonempty leaf, translated from
`find_first_nonempty` (normalization.py lines 869-909).  Returns
`(leaf, found, ancestors)`.  The function is total by construction: the
Python code never raises here, and the self-referential guard
(`attr[0] is attr`) appears as the `selfIter` case, which returns the value
as its own leaf instead of recursing. -/
def find_first_nonempty (attr : Value) (parents : List Value := []) :
    Value × Bool × List Value :=
  match attr with
  | Value.none => (Value.none, true, parents)
  | Value.arr a => (Value.arr a, true, parents)
  | Value.str s => (Value.str s, true, parents)
  | Value.selfIter => (Value.selfIter, true, parents)
  | Value.tup xs =>
      if xs.isEmpty then (Value.none, false, parents)
      else ffnChildren xs (parents ++ [Value.tup xs]) (Value.none, false, parents)
  | Value.list xs =>
      if xs.isEmpty then (Value.none, false, parents)
      else ffnChildren xs (parents ++ [Value.list xs]) (Value.none, false, parents)
  | v => (v, true, parents)

/-- The child loop of `find_first_nonempty`: return the first child that
reports success, otherwise keep the failed result with the strictly deepest
ancestor chain seen so far (`best` starts as `(None, False, parents)`). -/
def ffnChildren (xs : List Value) (parentsChild : List Value)
    (best : Value × Bool × List Value) : Value × Bool × List Value :=
  match xs with
  | [] => best
  | c :: rest =>
      let r := find_first_nonempty c parentsChild
      if r.2.1 then r
      else if r.2.2.length > best.2.2.length then ffnChildren rest parentsChild r
      else ffnChildren rest parentsChild best

end

/-- Python `"-".join(["iterable"] * n)`. -/
def iterDashJoin (n : Nat) : String :=
  String.intercalate "-" (List.replicate n "iterable")

/-- Python `s.lstrip("-")`. -/
def pyLstripDash (s : String) : String :=
  String.mk (s.data.dropWhile (fun c => c == '-'))

/-- The dtype-kind map of `_nonempty_info_to_type_str`, with the verbatim
fallback for unrecognized kinds. -/
def dkindMapStr : DKind → String
  | DKind.f => "float"
  | DKind.u => "uint"
  | DKind.i => "int"
  | DKind.b => "bool"
  | DKind.other s => s

/-- Translated from `_nonempty_info_to_type_str` (normalization.py lines
912-947): turn the finder result into the normalization-type tag string. -/
def _nonempty_info_to_type_str (nonempty : Value) (success : Bool)
    (parents : List Value) : Except PyError String := do
  assertProp (parents.length ≤ 4)
  let parent_iters : String :=
    if parents.length > 0 then iterDashJoin parents.length ++ "-" else ""
  if success = false then
    pure (parent_iters ++ "iterable[empty]")
  else
    let tupleTag : Option String :=
      match parents.getLast? with
      | some (Value.tup t) =>
          if t.length > 0 ∧ t.all is_single_number then
            some (pyLstripDash
              (iterDashJoin (parents.length - 1) ++ "-"
                ++ ("tuple[number,size=" ++ toString t.length ++ "]")))
          else Option.none
      | _ => Option.none
    match tupleTag with
    | some s => pure s
    | Option.none =>
      match nonempty with
      | Value.none => pure "None"
      | Value.arr a => pure (parent_iters ++ "array[" ++ dkindMapStr a.dtype.kind ++ "]")
      | v => pure (parent_iters ++ pyClassName v)

/-- Translated from `estimate_normalization_type` (lines 850-853). -/
def estimate_normalization_type (inputs : Value) : Except PyError String :=
  let r := find_first_nonempty inputs []
  _nonempty_info_to_type_str r.1 r.2.1 r.2.2

/-- Translated from `_assert_is_of_norm_type` (lines 727-731): assert the tag
is in the domain's whitelist, with the descriptive message. -/
def _assert_is_of_norm_type (type_str : String) (valid_type_strs : List String)
    (arg_name : String) : Except PyError Unit :=
  if type_str ∈ valid_type_strs then Except.ok ()
  else Except.error (PyError.assertionError
    ("Got an unknown datatype for argument '" ++ arg_name
      ++ "'. Expected datatypes were: " ++ String.intercalate ", " valid_type_strs
      ++ ". Got: " ++ type_str ++ "."))

/-- Translated from `estimate_heatmaps_norm_type` (lines 734-745). -/
def estimate_heatmaps_norm_type (heatmaps : Value) : Except PyError String := do
  let type_str ← estimate_normalization_type heatmaps
  _assert_is_of_norm_type type_str
    ["None",
     "array[float]",
     "HeatmapsOnImage",
     "iterable[empty]",
     "iterable-array[float]",
     "iterable-HeatmapsOnImage"] "heatmaps"
  pure type_str

/-- Translated from `estimate_segmaps_norm_type` (lines 748-764). -/
def estimate_segmaps_norm_type (segmentation_maps : Value) : Except PyError String := do
  let type_str ← estimate_normalization_type segmentation_maps
  _assert_is_of_norm_type type_str
    ["None",
     "array[int]",
     "array[uint]",
     "array[bool]",
     "SegmentationMapOnImage",
     "iterable[empty]",
     "iterable-array[int]",
     "iterable-array[uint]",
     "iterable-array[bool]",
     "iterable-SegmentationMapOnImage"] "segmentation_maps"
  pure type_str

/-- Translated from `estimate_keypoints_norm_type` (lines 767-789). -/
def estimate_keypoints_norm_type (keypoints : Value) : Except PyError String := do
  let type_str ← estimate_normalization_type keypoints
  _assert_is_of_norm_type type_str
    ["None",
     "array[float]",
     "array[int]",
     "array[uint]",
     "tuple[number,size=2]",
     "Keypoint",
     "KeypointsOnImage",
     "iterable[empty]",
     "iterable-array[float]",
     "iterable-array[int]",
     "iterable-array[uint]",
     "iterable-tuple[number,size=2]",
     "iterable-Keypoint",
     "iterable-KeypointsOnImage",
     "iterable-iterable[empty]",
     "iterable-iterable-tuple[number,size=2]",
     "iterable-iterable-Keypoint"] "keypoints"
  pure type_str

/-- Translated from `estimate_bounding_boxes_norm_type` (lines 792-815). -/
def estimate_bounding_boxes_norm_type (bounding_boxes : Value) : Except PyError String := do
  let type_str ← estimate_normalization_type bounding_boxes
  _assert_is_of_norm_type type_str
    ["None",
     "array[float]",
     "array[int]",
     "array[uint]",
     "tuple[number,size=4]",
     "BoundingBox",
     "BoundingBoxesOnImage",
     "iterable[empty]",
     "iterable-array[float]",
     "iterable-array[int]",
     "iterable-array[uint]",
     "iterable-tuple[number,size=4]",
     "iterable-BoundingBox",
     "iterable-BoundingBoxesOnImage",
     "iterable-iterable[empty]",
     "iterable-iterable-tuple[number,size=4]",
     "iterable-iterable-BoundingBox"] "bounding_boxes"
  pure type_str

/-- Translated from `estimate_polygons_norm_type` (lines 818-847). -/
def estimate_polygons_norm_type (polygons : Value) : Except PyError String := do
  let type_str ← estimate_normalization_type polygons
  _assert_is_of_norm_type type_str
    ["None",
     "array[float]",
     "array[int]",
     "array[uint]",
     "Polygon",
     "PolygonsOnImage",
     "iterable[empty]",
     "iterable-array[float]",
     "iterable-array[int]",
     "iterable-array[uint]",
     "iterable-tuple[number,size=2]",
     "iterable-Keypoint",
     "iterable-Polygon",
     "iterable-PolygonsOnImage",
     "iterable-iterable[empty]",
     "iterable-iterable-array[float]",
     "iterable-iterable-array[int]",
     "iterable-iterable-array[uint]",
     "iterable-iterable-tuple[number,size=2]",
     "iterable-iterable-Keypoint",
     "iterable-iterable-Polygon",
     "iterable-iterable-iterable[empty]",
     "iterable-iterable-iterable-tuple[number,size=2]",
     "iterable-iterable-iterable-Keypoint"] "polygons"
  pure type_str

/-- A shape descriptor tuple value built from an ndarray's `.shape`. -/
def shapeTuple (s : List Nat) : Value :=
  Value.tup (s.map (fun n => Value.num (n : ℚ)))

/-- Translated from `_preprocess_shapes` (lines 10-25): `None` passes
through, an image array of `ndim` 3 or 4 becomes one shape tuple per image,
and a list may mix literal shape tuples with per-image arrays. -/
def _preprocess_shapes (shapes : Value) : Except PyError (Option (List Value)) :=
  match shapes with
  | Value.none => Except.ok Option.none
  | Value.arr a => do
      assertProp (a.ndim = 3 ∨ a.ndim = 4)
      Except.ok (some ((npRows a).map (fun r => shapeTuple r.shape)))
  | Value.list xs => do
      let result ← xs.mapM (fun shape_i =>
        match shape_i with
        | Value.tup t => Except.ok (Value.tup t)
        | Value.arr a => Except.ok (shapeTuple a.shape)
        | _ => Except.error PyError.assertionFailed)
      Except.ok (some result)
  | _ => Except.error PyError.assertionFailed

/-- The message of the shape-count error when `shapes` was `None`
(lines 30-36); `n` is the required count. -/
def shapesNoneMsg (from_ntype to_ntype : String) (n : Nat) : String :=
  "Tried to convert data of form '" ++ from_ntype ++ "' to '" ++ to_ntype
    ++ "'. This required " ++ toString n
    ++ " corresponding image shapes, but argument 'shapes' was set to None. "
    ++ "This can happen e.g. if no images were provided in a Batch, as "
    ++ "these would usually be used to automatically derive image shapes."

/-- The message of the shape-count error when `len(shapes)` disagreed with
the required count `n` (lines 37-53); `actual` is `len(shapes)`. -/
def shapesMismatchMsg (from_ntype to_ntype : String) (n actual : Nat) : String :=
  "Tried to convert data of form '" ++ from_ntype ++ "' to '" ++ to_ntype
    ++ "'. This required exactly " ++ toString n
    ++ " corresponding image shapes, but instead " ++ toString actual
    ++ " were provided. This can happen e.g. if more images were provided "
    ++ "than corresponding augmentables, e.g. 10 images but only 5 "
    ++ "segmentation maps. It can also happen if there was a "
    ++ "misunderstanding about how an augmentable input would be "
    ++ "parsed. E.g. if a list of N (x,y)-tuples was provided as "
    ++ "keypoints and the expectation was that this would be parsed "
    ++ "as one keypoint per image for N images, but instead it was "
    ++ "parsed as N keypoints on 1 image (i.e. 'shapes' would have to "
    ++ "contain 1 shape, but N would be provided). To avoid this, it "
    ++ "is recommended to provide imgaug standard classes, e.g. "
    ++ "KeypointsOnImage for keypoints instead of lists of "
    ++ "tuples."

/-- Translated from `_assert_exactly_n_shapes` (lines 28-53). -/
def _assert_exactly_n_shapes (shapes : Option (List Value)) (n : Nat)
    (from_ntype to_ntype : String) : Except PyError Unit :=
  match shapes with
  | Option.none => Except.error (PyError.valueError (shapesNoneMsg from_ntype to_ntype n))
  | some s =>
      if s.length ≠ n then
        Except.error (PyError.valueError (shapesMismatchMsg from_ntype to_ntype n s.length))
      else Except.ok ()

/-- Unwrap a shape list known to be present; the error branch is dead code at
every call site because `_assert_exactly_n_shapes` (or an explicit
`assert shapes is not None`) ran first. -/
def someShapes : Option (List Value) → Except PyError (List Value)
  | some s => Except.ok s
  | Option.none => Except.error PyError.typeError

/-- Modelled from the spec: `KeypointsOnImage.from_coords_array` (external
collaborator, spec section 6): build one `Keypoint` per row of an `(N,2)`
coordinate array. -/
def KeypointsOnImage_from_coords_array (coords : Arr) (shape : Value) :
    Except PyError Value := do
  let kps ← (npRows coords).mapM (fun r => do
    let x ← npAt r 0
    let y ← npAt r 1
    Except.ok (Value.Keypoint (Value.num x) (Value.num y)))
  Except.ok (Value.KeypointsOnImage kps shape)

/-- Modelled from the spec: `KeypointsOnImage.get_coords_array` (external
collaborator): the keypoint coordinates as a float32 `(N,2)` array. -/
def KeypointsOnImage_get_coords_array (keypoints : List Value) :
    Except PyError Arr := do
  let rows ← keypoints.mapM (fun kp =>
    match kp with
    | Value.Keypoint (Value.num x) (Value.num y) => Except.ok [x, y]
    | Value.Keypoint _ _ => Except.error PyError.typeError
    | _ => Except.error PyError.attributeError)
  Except.ok (Arr.mk float32 [keypoints.length, 2] rows.flatten)

/-- Modelled from the spec: `BoundingBoxesOnImage.from_xyxy_array` (external
collaborator): build one `BoundingBox` per row of an `(B,4)` array. -/
def BoundingBoxesOnImage_from_xyxy_array (xyxy : Arr) (shape : Value) :
    Except PyError Value := do
  let bbs ← (npRows xyxy).mapM (fun r => do
    let x1 ← npAt r 0
    let y1 ← npAt r 1
    let x2 ← npAt r 2
    let y2 ← npAt r 3
    Except.ok (Value.BoundingBox (Value.num x1) (Value.num y1)
      (Value.num x2) (Value.num y2)))
  Except.ok (Value.BoundingBoxesOnImage bbs shape)

/-- Modelled from the spec: `BoundingBoxesOnImage.to_xyxy_array` (external
collaborator): the box corners as a float32 `(B,4)` array. -/
def BoundingBoxesOnImage_to_xyxy_array (bounding_boxes : List Value) :
    Except PyError Arr := do
  let rows ← bounding_boxes.mapM (fun bb =>
    match bb with
    | Value.BoundingBox (Value.num x1) (Value.num y1) (Value.num x2) (Value.num y2) =>
        Except.ok [x1, y1, x2, y2]
    | Value.BoundingBox _ _ _ _ => Except.error PyError.typeError
    | _ => Except.error PyError.attributeError)
  Except.ok (Arr.mk float32 [bounding_boxes.length, 4] rows.flatten)

/-- One `(x,y)` point of a polygon exterior, from a number pair or a
`Keypoint`. -/
def polygonPointRow : Value → Except PyError (List ℚ)
  | Value.tup [Value.num x, Value.num y] => Except.ok [x, y]
  | Value.list [Value.num x, Value.num y] => Except.ok [x, y]
  | Value.Keypoint (Value.num x) (Value.num y) => Except.ok [x, y]
  | _ => Except.error PyError.typeError

/-- Modelled from the spec: the `Polygon` constructor (external
collaborator) stores its exterior ring as a float32 `(N,2)` point array; it
accepts such an array, or a sequence of `(x,y)` number pairs or `Keypoint`s. -/
def polygonExteriorArr : Value → Except PyError Arr
  | Value.arr a => do
      assertProp (a.ndim = 2)
      assertProp (a.shape.getD 1 0 = 2)
      Except.ok (Arr.mk float32 a.shape a.data)
  | Value.tup xs => do
      let rows ← xs.mapM polygonPointRow
      Except.ok (Arr.mk float32 [xs.length, 2] rows.flatten)
  | Value.list xs => do
      let rows ← xs.mapM polygonPointRow
      Except.ok (Arr.mk float32 [xs.length, 2] rows.flatten)
  | _ => Except.error PyError.typeError

/-- Python `Polygon(points)`. -/
def Polygon_mk (points : Value) : Except PyError Value := do
  let ext ← polygonExteriorArr points
  Except.ok (Value.Polygon ext)

/-- Python tuple unpacking `x, y = value` (exactly two targets). -/
def unpack2 (v : Value) : Except PyError (Value × Value) := do
  let xs ← iterElems v
  match xs with
  | [a, b] => Except.ok (a, b)
  | _ => Except.error (PyError.valueError "unpacking mismatch")

/-- Python tuple unpacking `x1, y1, x2, y2 = value` (exactly four targets). -/
def unpack4 (v : Value) : Except PyError (Value × Value × Value × Value) := do
  let xs ← iterElems v
  match xs with
  | [a, b, c, d] => Except.ok (a, b, c, d)
  | _ => Except.error (PyError.valueError "unpacking mismatch")

/-- Python `np.array(nested, dtype=np.float32)` for an iterable of equal-length
number sequences, as used for nested literal coordinate lists; numpy raises
when the rows are ragged or non-numeric. -/
def npArrayFloat32Nested (v : Value) : Except PyError Arr := do
  let elems ← iterElems v
  let rows ← elems.mapM (fun t => do
    let xs ← iterElems t
    xs.mapM (fun x => match x with
      | Value.num q => Except.ok q
      | _ => Except.error (PyError.valueError "setting an array element with a sequence")))
  match rows with
  | [] => Except.ok (Arr.mk float32 [0] [])
  | r :: rest =>
      if rest.all (fun r2 => r2.length = r.length) then
        Except.ok (Arr.mk float32 [rows.length, r.length] rows.flatten)
      else Except.error (PyError.valueError "setting an array element with a sequence")

/-- Python `l[i]` on an already-extracted Python list. -/
def listAt (l : List Value) (i : Nat) : Except PyError Value :=
  match l[i]? with
  | some x => Except.ok x
  | _ => Except.error PyError.indexError

/-- The body of the per-image loop of the iterable branch of
`normalize_images`: a `(H,W)` image gains a trailing channel axis, anything
else must be 3-d and passes through. -/
def normalizeImageElem (image : Value) : Except PyError Value := do
  let a ← asArr image
  if a.ndim = 2 then
    Except.ok (Value.arr (Arr.mk a.dtype (a.shape ++ [1]) a.data))
  else do
    assertProp (a.ndim = 3)
    Except.ok (Value.arr a)

/-- The per-image loop of the iterable branch of `normalize_images`. -/
def normalizeImagesIter (xs : List Value) : Except PyError (List Value) :=
  xs.mapM normalizeImageElem

/-- Translated from `normalize_images` (lines 56-79): `None` passes through,
a 2-d array `(H,W)` becomes `(1,H,W,1)`, a 3-d array `(N,H,W)` becomes
`(N,H,W,1)`, higher-rank arrays pass through, and an iterable is normalized
per image (`(H,W)` to `(H,W,1)`, 3-d kept, anything else asserts). -/
def normalize_images (images : Value) : Except PyError Value :=
  match images with
  | Value.none => Except.ok Value.none
  | Value.arr a =>
      if a.ndim = 2 then
        Except.ok (Value.arr (Arr.mk a.dtype (1 :: (a.shape ++ [1])) a.data))
      else if a.ndim = 3 then
        Except.ok (Value.arr (Arr.mk a.dtype (a.shape ++ [1]) a.data))
      else
        Except.ok (Value.arr a)
  | Value.list xs => do
      let result ← normalizeImagesIter xs
      Except.ok (Value.list result)
  | Value.tup xs => do
      let result ← normalizeImagesIter xs
      Except.ok (Value.list result)
  | Value.str s =>
      if s.isEmpty then Except.ok (Value.list [])
      else Except.error PyError.attributeError
  | Value.selfIter => Except.error PyError.typeError
  | v => Except.error (PyError.valueError
      ("Expected argument 'images' to be any of the following: "
        ++ "None or array or iterable of array. Got type: " ++ pyClassName v ++ "."))

/-- Translated from `normalize_heatmaps` (lines 82-111). -/
def normalize_heatmaps (inputs : Value) (shapesArg : Value := Value.none) :
    Except PyError Value := do
  let shapes ← _preprocess_shapes shapesArg
  let ntype ← estimate_heatmaps_norm_type inputs
  if ntype = "None" then
    Except.ok Value.none
  else if ntype = "array[float]" then do
    let n ← pyLen inputs
    _assert_exactly_n_shapes shapes n ntype "List[HeatmapsOnImage]"
    let a ← asArr inputs
    assertProp (a.ndim = 4)
    let sl ← someShapes shapes
    Except.ok (Value.list (((npRows a).zip sl).map
      (fun p => Value.HeatmapsOnImage p.1 p.2)))
  else if ntype = "HeatmapsOnImage" then
    Except.ok (Value.list [inputs])
  else if ntype = "iterable[empty]" then
    Except.ok Value.none
  else if ntype = "iterable-array[float]" then do
    let n ← pyLen inputs
    _assert_exactly_n_shapes shapes n ntype "List[HeatmapsOnImage]"
    let elems ← iterElems inputs
    let arrs ← elems.mapM asArr
    assertProp (∀ attr_i ∈ arrs, attr_i.ndim = 3)
    let sl ← someShapes shapes
    Except.ok (Value.list ((arrs.zip sl).map
      (fun p => Value.HeatmapsOnImage p.1 p.2)))
  else do
    assertProp (ntype = "iterable-HeatmapsOnImage")
    Except.ok inputs

/-- Translated from `normalize_segmentation_maps` (lines 113-152). -/
def normalize_segmentation_maps (inputs : Value) (shapesArg : Value := Value.none) :
    Except PyError Value := do
  let shapes ← _preprocess_shapes shapesArg
  let ntype ← estimate_segmaps_norm_type inputs
  if ntype = "None" then
    Except.ok Value.none
  else if ntype = "array[int]" ∨ ntype = "array[uint]" ∨ ntype = "array[bool]" then do
    let n ← pyLen inputs
    _assert_exactly_n_shapes shapes n ntype "List[SegmentationMapOnImage]"
    let a ← asArr inputs
    assertProp (a.ndim = 3)
    let sl ← someShapes shapes
    if ntype = "array[bool]" then
      Except.ok (Value.list (((npRows a).zip sl).map
        (fun p => Value.SegmentationMapOnImage p.1 p.2 Option.none)))
    else do
      let containers ← ((npRows a).zip sl).mapM (fun p => do
        let m ← np_max p.1
        Except.ok (Value.SegmentationMapOnImage p.1 p.2 (some (1 + m))))
      Except.ok (Value.list containers)
  else if ntype = "SegmentationMapOnImage" then
    Except.ok (Value.list [inputs])
  else if ntype = "iterable[empty]" then
    Except.ok Value.none
  else if ntype = "iterable-array[int]" ∨ ntype = "iterable-array[uint]"
      ∨ ntype = "iterable-array[bool]" then do
    let n ← pyLen inputs
    _assert_exactly_n_shapes shapes n ntype "List[SegmentationMapOnImage]"
    let elems ← iterElems inputs
    let arrs ← elems.mapM asArr
    assertProp (∀ attr_i ∈ arrs, attr_i.ndim = 2)
    let sl ← someShapes shapes
    if ntype = "iterable-array[bool]" then
      Except.ok (Value.list ((arrs.zip sl).map
        (fun p => Value.SegmentationMapOnImage p.1 p.2 Option.none)))
    else do
      let containers ← (arrs.zip sl).mapM (fun p => do
        let m ← np_max p.1
        Except.ok (Value.SegmentationMapOnImage p.1 p.2 (some (1 + m))))
      Except.ok (Value.list containers)
  else do
    assertProp (ntype = "iterable-SegmentationMapOnImage")
    Except.ok inputs

/-- Translated from `normalize_keypoints` (lines 155-225). -/
def normalize_keypoints (inputs : Value) (shapesArg : Value := Value.none) :
    Except PyError Value := do
  let shapes ← _preprocess_shapes shapesArg
  let ntype ← estimate_keypoints_norm_type inputs
  if ntype = "None" then
    Except.ok inputs
  else if ntype = "array[float]" ∨ ntype = "array[int]" ∨ ntype = "array[uint]" then do
    let n ← pyLen inputs
    _assert_exactly_n_shapes shapes n ntype "List[KeypointsOnImage]"
    let a ← asArr inputs
    assertProp (a.ndim = 3)
    assertProp (a.shape.getD 2 0 = 2)
    let sl ← someShapes shapes
    let containers ← ((npRows a).zip sl).mapM
      (fun p => KeypointsOnImage_from_coords_array p.1 p.2)
    Except.ok (Value.list containers)
  else if ntype = "tuple[number,size=2]" then do
    _assert_exactly_n_shapes shapes 1 ntype "List[KeypointsOnImage]"
    let x ← pyIndex inputs 0
    let y ← pyIndex inputs 1
    let sl ← someShapes shapes
    let s0 ← listAt sl 0
    Except.ok (Value.list [Value.KeypointsOnImage [Value.Keypoint x y] s0])
  else if ntype = "Keypoint" then do
    _assert_exactly_n_shapes shapes 1 ntype "List[KeypointsOnImage]"
    let sl ← someShapes shapes
    let s0 ← listAt sl 0
    Except.ok (Value.list [Value.KeypointsOnImage [inputs] s0])
  else if ntype = "KeypointsOnImage" then
    Except.ok (Value.list [inputs])
  else if ntype = "iterable[empty]" then
    Except.ok Value.none
  else if ntype = "iterable-array[float]" ∨ ntype = "iterable-array[int]"
      ∨ ntype = "iterable-array[uint]" then do
    let n ← pyLen inputs
    _assert_exactly_n_shapes shapes n ntype "List[KeypointsOnImage]"
    let elems ← iterElems inputs
    let arrs ← elems.mapM asArr
    assertProp (∀ attr_i ∈ arrs, attr_i.ndim = 2)
    assertProp (∀ attr_i ∈ arrs, attr_i.shape.getD 1 0 = 2)
    let sl ← someShapes shapes
    let containers ← (arrs.zip sl).mapM
      (fun p => KeypointsOnImage_from_coords_array p.1 p.2)
    Except.ok (Value.list containers)
  else if ntype = "iterable-tuple[number,size=2]" then do
    _assert_exactly_n_shapes shapes 1 ntype "List[KeypointsOnImage]"
    let elems ← iterElems inputs
    let kps ← elems.mapM (fun t => do
      let xy ← unpack2 t
      Except.ok (Value.Keypoint xy.1 xy.2))
    let sl ← someShapes shapes
    let s0 ← listAt sl 0
    Except.ok (Value.list [Value.KeypointsOnImage kps s0])
  else if ntype = "iterable-Keypoint" then do
    _assert_exactly_n_shapes shapes 1 ntype "List[KeypointsOnImage]"
    let elems ← iterElems inputs
    let sl ← someShapes shapes
    let s0 ← listAt sl 0
    Except.ok (Value.list [Value.KeypointsOnImage elems s0])
  else if ntype = "iterable-KeypointsOnImage" then
    Except.ok inputs
  else if ntype = "iterable-iterable[empty]" then
    Except.ok Value.none
  else if ntype = "iterable-iterable-tuple[number,size=2]" then do
    let n ← pyLen inputs
    _assert_exactly_n_shapes shapes n ntype "List[KeypointsOnImage]"
    let elems ← iterElems inputs
    let sl ← someShapes shapes
    let containers ← (elems.zip sl).mapM (fun p => do
      let coords ← npArrayFloat32Nested p.1
      KeypointsOnImage_from_coords_array coords p.2)
    Except.ok (Value.list containers)
  else do
    assertProp (ntype = "iterable-iterable-Keypoint")
    let n ← pyLen inputs
    _assert_exactly_n_shapes shapes n ntype "List[KeypointsOnImage]"
    let elems ← iterElems inputs
    let sl ← someShapes shapes
    let containers ← (elems.zip sl).mapM (fun p => do
      let kps ← iterElems p.1
      Except.ok (Value.KeypointsOnImage kps p.2))
    Except.ok (Value.list containers)

/-- Translated from `normalize_bounding_boxes` (lines 227-308); this domain
uses bare `assert` statements instead of `_assert_exactly_n_shapes`. -/
def normalize_bounding_boxes (inputs : Value) (shapesArg : Value := Value.none) :
    Except PyError Value := do
  let shapes ← _preprocess_shapes shapesArg
  let ntype ← estimate_bounding_boxes_norm_type inputs
  if ntype = "None" then
    Except.ok Value.none
  else if ntype = "array[float]" ∨ ntype = "array[int]" ∨ ntype = "array[uint]" then do
    assertProp shapes.isSome
    let a ← asArr inputs
    assertProp (a.ndim = 3)
    assertProp (a.shape.getD 2 0 = 4)
    let sl ← someShapes shapes
    let n ← pyLen inputs
    assertProp (n = sl.length)
    let containers ← ((npRows a).zip sl).mapM
      (fun p => BoundingBoxesOnImage_from_xyxy_array p.1 p.2)
    Except.ok (Value.list containers)
  else if ntype = "tuple[number,size=4]" then do
    assertProp shapes.isSome
    let sl ← someShapes shapes
    assertProp (sl.length = 1)
    let x1 ← pyIndex inputs 0
    let y1 ← pyIndex inputs 1
    let x2 ← pyIndex inputs 2
    let y2 ← pyIndex inputs 3
    let s0 ← listAt sl 0
    Except.ok (Value.list [Value.BoundingBoxesOnImage [Value.BoundingBox x1 y1 x2 y2] s0])
  else if ntype = "BoundingBox" then do
    assertProp shapes.isSome
    let sl ← someShapes shapes
    assertProp (sl.length = 1)
    let s0 ← listAt sl 0
    Except.ok (Value.list [Value.BoundingBoxesOnImage [inputs] s0])
  else if ntype = "BoundingBoxesOnImage" then
    Except.ok (Value.list [inputs])
  else if ntype = "iterable[empty]" then
    Except.ok Value.none
  else if ntype = "iterable-array[float]" ∨ ntype = "iterable-array[int]"
      ∨ ntype = "iterable-array[uint]" then do
    assertProp shapes.isSome
    let elems ← iterElems inputs
    let arrs ← elems.mapM asArr
    assertProp (∀ attr_i ∈ arrs, attr_i.ndim = 2)
    assertProp (∀ attr_i ∈ arrs, attr_i.shape.getD 1 0 = 4)
    let sl ← someShapes shapes
    let n ← pyLen inputs
    assertProp (n = sl.length)
    let containers ← (arrs.zip sl).mapM
      (fun p => BoundingBoxesOnImage_from_xyxy_array p.1 p.2)
    Except.ok (Value.list containers)
  else if ntype = "iterable-tuple[number,size=4]" then do
    assertProp shapes.isSome
    let sl ← someShapes shapes
    assertProp (sl.length = 1)
    let elems ← iterElems inputs
    let bbs ← elems.mapM (fun t => do
      let c ← unpack4 t
      Except.ok (Value.BoundingBox c.1 c.2.1 c.2.2.1 c.2.2.2))
    let s0 ← listAt sl 0
    Except.ok (Value.list [Value.BoundingBoxesOnImage bbs s0])
  else if ntype = "iterable-BoundingBox" then do
    assertProp shapes.isSome
    let sl ← someShapes shapes
    assertProp (sl.length = 1)
    let elems ← iterElems inputs
    let s0 ← listAt sl 0
    Except.ok (Value.list [Value.BoundingBoxesOnImage elems s0])
  else if ntype = "iterable-BoundingBoxesOnImage" then
    Except.ok inputs
  else if ntype = "iterable-iterable[empty]" then
    Except.ok Value.none
  else if ntype = "iterable-iterable-tuple[number,size=4]" then do
    assertProp shapes.isSome
    let sl ← someShapes shapes
    let n ← pyLen inputs
    assertProp (n = sl.length)
    let elems ← iterElems inputs
    let containers ← (elems.zip sl).mapM (fun p => do
      let xyxy ← npArrayFloat32Nested p.1
      BoundingBoxesOnImage_from_xyxy_array xyxy p.2)
    Except.ok (Value.list containers)
  else do
    assertProp (ntype = "iterable-iterable-BoundingBox")
    assertProp shapes.isSome
    let sl ← someShapes shapes
    let n ← pyLen inputs
    assertProp (n = sl.length)
    let elems ← iterElems inputs
    let containers ← (elems.zip sl).mapM (fun p => do
      let bbs ← iterElems p.1
      Except.ok (Value.BoundingBoxesOnImage bbs p.2))
    Except.ok (Value.list containers)

/-- Translated from `normalize_polygons` (lines 311-418). -/
def normalize_polygons (inputs : Value) (shapesArg : Value := Value.none) :
    Except PyError Value := do
  let shapes ← _preprocess_shapes shapesArg
  let ntype ← estimate_polygons_norm_type inputs
  if ntype = "None" then
    Except.ok Value.none
  else if ntype = "array[float]" ∨ ntype = "array[int]" ∨ ntype = "array[uint]" then do
    assertProp shapes.isSome
    let a ← asArr inputs
    assertProp (a.ndim = 4)
    assertProp (a.shape.getLast? = some 2)
    let sl ← someShapes shapes
    let n ← pyLen inputs
    assertProp (n = sl.length)
    let containers ← ((npRows a).zip sl).mapM (fun p => do
      let polys ← (npRows p.1).mapM (fun poly_points => Polygon_mk (Value.arr poly_points))
      Except.ok (Value.PolygonsOnImage polys p.2))
    Except.ok (Value.list containers)
  else if ntype = "Polygon" then do
    assertProp shapes.isSome
    let sl ← someShapes shapes
    assertProp (sl.length = 1)
    let s0 ← listAt sl 0
    Except.ok (Value.list [Value.PolygonsOnImage [inputs] s0])
  else if ntype = "PolygonsOnImage" then
    Except.ok (Value.list [inputs])
  else if ntype = "iterable[empty]" then
    Except.ok Value.none
  else if ntype = "iterable-array[float]" ∨ ntype = "iterable-array[int]"
      ∨ ntype = "iterable-array[uint]" then do
    assertProp shapes.isSome
    let elems ← iterElems inputs
    let arrs ← elems.mapM asArr
    assertProp (∀ attr_i ∈ arrs, attr_i.ndim = 3)
    assertProp (∀ attr_i ∈ arrs, attr_i.shape.getLast? = some 2)
    let sl ← someShapes shapes
    let n ← pyLen inputs
    assertProp (n = sl.length)
    let containers ← (arrs.zip sl).mapM (fun p => do
      let polys ← (npRows p.1).mapM (fun poly_points => Polygon_mk (Value.arr poly_points))
      Except.ok (Value.PolygonsOnImage polys p.2))
    Except.ok (Value.list containers)
  else if ntype = "iterable-tuple[number,size=2]" then do
    assertProp shapes.isSome
    let sl ← someShapes shapes
    assertProp (sl.length = 1)
    let poly ← Polygon_mk inputs
    let s0 ← listAt sl 0
    Except.ok (Value.list [Value.PolygonsOnImage [poly] s0])
  else if ntype = "iterable-Keypoint" then do
    assertProp shapes.isSome
    let sl ← someShapes shapes
    assertProp (sl.length = 1)
    let poly ← Polygon_mk inputs
    let s0 ← listAt sl 0
    Except.ok (Value.list [Value.PolygonsOnImage [poly] s0])
  else if ntype = "iterable-Polygon" then do
    assertProp shapes.isSome
    let sl ← someShapes shapes
    assertProp (sl.length = 1)
    let elems ← iterElems inputs
    let s0 ← listAt sl 0
    Except.ok (Value.list [Value.PolygonsOnImage elems s0])
  else if ntype = "iterable-PolygonsOnImage" then
    Except.ok inputs
  else if ntype = "iterable-iterable[empty]" then
    Except.ok Value.none
  else if ntype = "iterable-iterable-array[float]" ∨ ntype = "iterable-iterable-array[int]"
      ∨ ntype = "iterable-iterable-array[uint]" then do
    assertProp shapes.isSome
    let sl ← someShapes shapes
    let n ← pyLen inputs
    assertProp (n = sl.length)
    let elems ← iterElems inputs
    let nested ← elems.mapM (fun attr_i => do
      let pps ← iterElems attr_i
      pps.mapM asArr)
    assertProp (∀ attr_i ∈ nested, ∀ poly_points ∈ attr_i,
      poly_points.ndim = 2 ∧ poly_points.shape.getLast? = some 2)
    let containers ← (nested.zip sl).mapM (fun p => do
      let polys ← p.1.mapM (fun poly_points => Polygon_mk (Value.arr poly_points))
      Except.ok (Value.PolygonsOnImage polys p.2))
    Except.ok (Value.list containers)
  else if ntype = "iterable-iterable-tuple[number,size=2]" then do
    assertProp shapes.isSome
    let sl ← someShapes shapes
    assertProp (sl.length = 1)
    let elems ← iterElems inputs
    let polys ← elems.mapM (fun attr_i => Polygon_mk attr_i)
    let s0 ← listAt sl 0
    Except.ok (Value.list [Value.PolygonsOnImage polys s0])
  else if ntype = "iterable-iterable-Keypoint" then do
    assertProp shapes.isSome
    let sl ← someShapes shapes
    assertProp (sl.length = 1)
    let elems ← iterElems inputs
    let polys ← elems.mapM (fun attr_i => Polygon_mk attr_i)
    let s0 ← listAt sl 0
    Except.ok (Value.list [Value.PolygonsOnImage polys s0])
  else if ntype = "iterable-iterable-Polygon" then do
    assertProp shapes.isSome
    let sl ← someShapes shapes
    let n ← pyLen inputs
    assertProp (n = sl.length)
    let elems ← iterElems inputs
    let containers ← (elems.zip sl).mapM (fun p => do
      let polys ← iterElems p.1
      Except.ok (Value.PolygonsOnImage polys p.2))
    Except.ok (Value.list containers)
  else if ntype = "iterable-iterable-iterable[empty]" then
    Except.ok Value.none
  else do
    assertProp (ntype = "iterable-iterable-iterable-tuple[number,size=2]"
      ∨ ntype = "iterable-iterable-iterable-Keypoint")
    assertProp shapes.isSome
    let sl ← someShapes shapes
    let n ← pyLen inputs
    assertProp (n = sl.length)
    let elems ← iterElems inputs
    let containers ← (elems.zip sl).mapM (fun p => do
      let pps ← iterElems p.1
      let polys ← pps.mapM (fun poly_points => Polygon_mk poly_points)
      Except.ok (Value.PolygonsOnImage polys p.2))
    Except.ok (Value.list containers)

/-- Modelled from the spec: `imgaug.dtypes.restore_dtypes_` (not under
`src/`): set the array's dtype to the target, casting every value directly
(spec section 4.5). -/
def restore_dtypes_ (a : Arr) (input_dtype : Dtype) : Arr :=
  Arr.mk input_dtype a.shape (a.data.map (castValue input_dtype))

/-- The final step of `restore_dtype_and_merge` (lines 864-865): restore the
dtype whenever the intermediate result is an ndarray. -/
def restoreFinal (v : Value) (input_dtype : Dtype) : Value :=
  match v with
  | Value.arr a => Value.arr (restore_dtypes_ a input_dtype)
  | v => v

mutual

/-- Translated from `restore_dtype_and_merge` (lines 856-866): recurse into
nested Python lists (post-order), then merge a list whose members all have
one common array shape into one stacked array, and finally restore the dtype
at whatever ndarray resulted.  `arr_i.shape` on a non-array member raises. -/
def restore_dtype_and_merge (v : Value) (input_dtype : Dtype) : Except PyError Value :=
  match v with
  | Value.list xs => do
      let ys ← restoreList xs input_dtype
      let as ← ys.mapM (fun y =>
        match y with
        | Value.arr a => Except.ok a
        | _ => Except.error PyError.attributeError)
      let shapes := as.map Arr.shape
      if shapes.dedup.length = 1 then
        Except.ok (restoreFinal (Value.arr (npStack as)) input_dtype)
      else
        Except.ok (restoreFinal (Value.list ys) input_dtype)
  | v => Except.ok (restoreFinal v input_dtype)

/-- Element-wise recursion of `restore_dtype_and_merge` over a list. -/
def restoreList (xs : List Value) (input_dtype : Dtype) : Except PyError (List Value) :=
  match xs with
  | [] => Except.ok []
  | x :: rest => do
      let y ← restore_dtype_and_merge x input_dtype
      let ys ← restoreList rest input_dtype
      Except.ok (y :: ys)

end

/-- Field `.keypoints` of a `KeypointsOnImage`. -/
def kpsOf : Value → Except PyError (List Value)
  | Value.KeypointsOnImage kps _ => Except.ok kps
  | _ => Except.error PyError.attributeError

/-- Field `.x` of a `Keypoint`. -/
def kpX : Value → Except PyError Value
  | Value.Keypoint x _ => Except.ok x
  | _ => Except.error PyError.attributeError

/-- Field `.y` of a `Keypoint`. -/
def kpY : Value → Except PyError Value
  | Value.Keypoint _ y => Except.ok y
  | _ => Except.error PyError.attributeError

/-- Field `.bounding_boxes` of a `BoundingBoxesOnImage`. -/
def bbsOf : Value → Except PyError (List Value)
  | Value.BoundingBoxesOnImage bbs _ => Except.ok bbs
  | _ => Except.error PyError.attributeError

/-- The four corner fields of a `BoundingBox`. -/
def bbCorners : Value → Except PyError (Value × Value × Value × Value)
  | Value.BoundingBox x1 y1 x2 y2 => Except.ok (x1, y1, x2, y2)
  | _ => Except.error PyError.attributeError

/-- Field `.polygons` of a `PolygonsOnImage`. -/
def polysOf : Value → Except PyError (List Value)
  | Value.PolygonsOnImage polys _ => Except.ok polys
  | _ => Except.error PyError.attributeError

/-- Field `.exterior` of a `Polygon`. -/
def polyExterior : Value → Except PyError Arr
  | Value.Polygon ext => Except.ok ext
  | _ => Except.error PyError.attributeError

/-- Field `.arr_0to1` of a `HeatmapsOnImage`. -/
def heatArr0to1 : Value → Except PyError Arr
  | Value.HeatmapsOnImage a _ => Except.ok a
  | _ => Except.error PyError.attributeError

/-- Modelled from the spec: `SegmentationMapOnImage.get_arr_int` (external
collaborator): the stored map as an int32 array (spec section 8 notes the
containers may internally store "a wider integer type"). -/
def SegmentationMapOnImage_get_arr_int : Value → Except PyError Arr
  | Value.SegmentationMapOnImage a _ _ =>
      Except.ok (Arr.mk int32 a.shape (a.data.map (castValue int32)))
  | _ => Except.error PyError.attributeError

/-- Python `a.shape[i]`. -/
def shapeAt (a : Arr) (i : Nat) : Except PyError Nat :=
  match a.shape[i]? with
  | some n => Except.ok n
  | _ => Except.error PyError.indexError

/-- Index 0 along an axis of stride `l`: the sublists of length 1 found at
each multiple of `l`. -/
def selectLast0 (l : Nat) (d : List ℚ) : List ℚ :=
  ((List.range (d.length / l)).map (fun i => (d.drop (i * l)).take 1)).flatten

/-- Numpy `a[..., 0]`: index 0 of the last axis. -/
def npIndexLast0 (a : Arr) : Except PyError Arr :=
  match a.shape.getLast? with
  | some l =>
      if 0 < l then
        Except.ok (Arr.mk a.dtype a.shape.dropLast (selectLast0 l a.data))
      else Except.error PyError.indexError
  | _ => Except.error PyError.indexError

/-- Numpy `a[0, ..., 0]`: index 0 of the first and of the last axis. -/
def npIndexFirstLast (a : Arr) : Except PyError Arr :=
  match a.shape with
  | n0 :: rest =>
      if 0 < n0 then npIndexLast0 (Arr.mk a.dtype rest (a.data.take rest.prod))
      else Except.error PyError.indexError
  | _ => Except.error PyError.indexError

/-- Numpy `a[:, :, 0]`: index 0 of axis 2. -/
def npIndexAxis2Zero (a : Arr) : Except PyError Arr :=
  match a.shape with
  | s0 :: s1 :: s2 :: rest =>
      if 0 < s2 then
        let inner := rest.prod
        Except.ok (Arr.mk a.dtype (s0 :: s1 :: rest)
          (((List.range (s0 * s1)).map
            (fun i => (a.data.drop (i * (s2 * inner))).take inner)).flatten))
      else Except.error PyError.indexError
  | _ => Except.error PyError.indexError

/-- The body of the per-image loop of the iterable branch of
`invert_normalize_images`: `p.1` is the normalized image, `p.2` the original
one from `zip(images, images_old)`. -/
def invertImageElem (p : Value × Value) : Except PyError Value := do
  let image_old ← asArr p.2
  if image_old.ndim = 2 then do
    let image ← asArr p.1
    let s2 ← shapeAt image 2
    assertProp (s2 = 1)
    let r ← npIndexAxis2Zero image
    Except.ok (Value.arr r)
  else do
    let image ← asArr p.1
    assertProp (image.ndim = 3)
    assertProp (image_old.ndim = 3)
    Except.ok (Value.arr image)

/-- The per-image loop of the iterable branch of `invert_normalize_images`. -/
def invertImagesIter (pairs : List (Value × Value)) : Except PyError (List Value) :=
  pairs.mapM invertImageElem

/-- Translated from `invert_normalize_images` (lines 421-450). -/
def invert_normalize_images (images images_old : Value) : Except PyError Value :=
  match images_old with
  | Value.none => do
      assertProp (images.isNone = true)
      Except.ok Value.none
  | Value.arr images_old_a =>
      if images_old_a.ndim = 2 then do
        let a ← asArr images
        let s0 ← shapeAt a 0
        assertProp (s0 = 1)
        let s3 ← shapeAt a 3
        assertProp (s3 = 1)
        let r ← npIndexFirstLast a
        Except.ok (Value.arr r)
      else if images_old_a.ndim = 3 then do
        let a ← asArr images
        let s3 ← shapeAt a 3
        assertProp (s3 = 1)
        let r ← npIndexLast0 a
        Except.ok (Value.arr r)
      else
        Except.ok images
  | Value.list olds => do
      let news ← iterElems images
      let result ← invertImagesIter (news.zip olds)
      Except.ok (Value.list result)
  | Value.tup olds => do
      let news ← iterElems images
      let result ← invertImagesIter (news.zip olds)
      Except.ok (Value.list result)
  | Value.str s =>
      if s.isEmpty then
        match iterElems images with
        | Except.ok _ => Except.ok (Value.list [])
        | Except.error e => Except.error e
      else Except.error PyError.attributeError
  | Value.selfIter => Except.error PyError.typeError
  | v => Except.error (PyError.valueError
      ("Expected argument 'images_old' to be any of the following: "
        ++ "None or array or iterable of array. Got type: " ++ pyClassName v ++ "."))

/-- Translated from `invert_normalize_heatmaps` (lines 453-477). -/
def invert_normalize_heatmaps (heatmaps heatmaps_old : Value) : Except PyError Value := do
  let ntype ← estimate_heatmaps_norm_type heatmaps_old
  if ntype = "None" then do
    assertProp (heatmaps.isNone = true)
    Except.ok heatmaps
  else if ntype = "array[float]" then do
    let n ← pyLen heatmaps
    let aOld ← asArr heatmaps_old
    let s0 ← shapeAt aOld 0
    assertProp (n = s0)
    let elems ← iterElems heatmaps
    let arrs ← elems.mapM (fun hm_i => do
      let a ← heatArr0to1 hm_i
      Except.ok (Value.arr a))
    restore_dtype_and_merge (Value.list arrs) aOld.dtype
  else if ntype = "HeatmapsOnImage" then do
    let n ← pyLen heatmaps
    assertProp (n = 1)
    pyIndex heatmaps 0
  else if ntype = "iterable[empty]" then do
    assertProp (heatmaps.isNone = true)
    Except.ok (Value.list [])
  else if ntype = "iterable-array[float]" then do
    let r := find_first_nonempty heatmaps_old
    let nonempty ← asArr r.1
    let elems ← iterElems heatmaps
    let result ← elems.mapM (fun hm_i => do
      let a ← heatArr0to1 hm_i
      restore_dtype_and_merge (Value.arr a) nonempty.dtype)
    Except.ok (Value.list result)
  else do
    assertProp (ntype = "iterable-HeatmapsOnImage")
    Except.ok heatmaps

/-- Translated from `invert_normalize_segmentation_maps` (lines 480-507). -/
def invert_normalize_segmentation_maps (segmentation_maps segmentation_maps_old : Value) :
    Except PyError Value := do
  let ntype ← estimate_segmaps_norm_type segmentation_maps_old
  if ntype = "None" then do
    assertProp (segmentation_maps.isNone = true)
    Except.ok segmentation_maps
  else if ntype = "array[int]" ∨ ntype = "array[uint]" ∨ ntype = "array[bool]" then do
    let n ← pyLen segmentation_maps
    let aOld ← asArr segmentation_maps_old
    let s0 ← shapeAt aOld 0
    assertProp (n = s0)
    let elems ← iterElems segmentation_maps
    let arrs ← elems.mapM (fun segmap_i => do
      let a ← SegmentationMapOnImage_get_arr_int segmap_i
      Except.ok (Value.arr a))
    restore_dtype_and_merge (Value.list arrs) aOld.dtype
  else if ntype = "SegmentationMapOnImage" then do
    let n ← pyLen segmentation_maps
    assertProp (n = 1)
    pyIndex segmentation_maps 0
  else if ntype = "iterable[empty]" then do
    assertProp (segmentation_maps.isNone = true)
    Except.ok (Value.list [])
  else if ntype = "iterable-array[int]" ∨ ntype = "iterable-array[uint]"
      ∨ ntype = "iterable-array[bool]" then do
    let r := find_first_nonempty segmentation_maps_old
    let nonempty ← asArr r.1
    let elems ← iterElems segmentation_maps
    let result ← elems.mapM (fun segmap_i => do
      let a ← SegmentationMapOnImage_get_arr_int segmap_i
      restore_dtype_and_merge (Value.arr a) nonempty.dtype)
    Except.ok (Value.list result)
  else do
    assertProp (ntype = "iterable-SegmentationMapOnImage")
    Except.ok segmentation_maps

/-- Translated from `invert_normalize_keypoints` (lines 510-565).  Note the
array branch asserts `len(keypoints) == 1`, unlike the heatmaps/segmaps
array branches which assert against the batch size of the original array. -/
def invert_normalize_keypoints (keypoints keypoints_old : Value) : Except PyError Value := do
  let ntype ← estimate_keypoints_norm_type keypoints_old
  if ntype = "None" then do
    assertProp (keypoints.isNone = true)
    Except.ok keypoints
  else if ntype = "array[float]" ∨ ntype = "array[int]" ∨ ntype = "array[uint]" then do
    let n ← pyLen keypoints
    assertProp (n = 1)
    let aOld ← asArr keypoints_old
    let elems ← iterElems keypoints
    let arrs ← elems.mapM (fun kpsoi => do
      let kps ← kpsOf kpsoi
      let c ← KeypointsOnImage_get_coords_array kps
      Except.ok (Value.arr c))
    restore_dtype_and_merge (Value.list arrs) aOld.dtype
  else if ntype = "tuple[number,size=2]" then do
    let n ← pyLen keypoints
    assertProp (n = 1)
    let k0 ← pyIndex keypoints 0
    let kps ← kpsOf k0
    assertProp (kps.length = 1)
    let kp ← listAt kps 0
    let x ← kpX kp
    let y ← kpY kp
    Except.ok (Value.tup [x, y])
  else if ntype = "Keypoint" then do
    let n ← pyLen keypoints
    assertProp (n = 1)
    let k0 ← pyIndex keypoints 0
    let kps ← kpsOf k0
    assertProp (kps.length = 1)
    listAt kps 0
  else if ntype = "KeypointsOnImage" then do
    let n ← pyLen keypoints
    assertProp (n = 1)
    pyIndex keypoints 0
  else if ntype = "iterable[empty]" then do
    assertProp (keypoints.isNone = true)
    Except.ok (Value.list [])
  else if ntype = "iterable-array[float]" ∨ ntype = "iterable-array[int]"
      ∨ ntype = "iterable-array[uint]" then do
    let r := find_first_nonempty keypoints_old
    let nonempty ← asArr r.1
    let elems ← iterElems keypoints
    let result ← elems.mapM (fun kps_i => do
      let kps ← kpsOf kps_i
      let c ← KeypointsOnImage_get_coords_array kps
      restore_dtype_and_merge (Value.arr c) nonempty.dtype)
    Except.ok (Value.list result)
  else if ntype = "iterable-tuple[number,size=2]" then do
    let n ← pyLen keypoints
    assertProp (n = 1)
    let k0 ← pyIndex keypoints 0
    let kps ← kpsOf k0
    let tups ← kps.mapM (fun kp => do
      let x ← kpX kp
      let y ← kpY kp
      Except.ok (Value.tup [x, y]))
    Except.ok (Value.list tups)
  else if ntype = "iterable-Keypoint" then do
    let n ← pyLen keypoints
    assertProp (n = 1)
    let k0 ← pyIndex keypoints 0
    let kps ← kpsOf k0
    Except.ok (Value.list kps)
  else if ntype = "iterable-KeypointsOnImage" then
    Except.ok keypoints
  else if ntype = "iterable-iterable[empty]" then do
    assertProp (keypoints.isNone = true)
    pySliceAll keypoints_old
  else if ntype = "iterable-iterable-tuple[number,size=2]" then do
    let elems ← iterElems keypoints
    let outer ← elems.mapM (fun kpsoi => do
      let kps ← kpsOf kpsoi
      let tups ← kps.mapM (fun kp => do
        let x ← kpX kp
        let y ← kpY kp
        Except.ok (Value.tup [x, y]))
      Except.ok (Value.list tups))
    Except.ok (Value.list outer)
  else do
    assertProp (ntype = "iterable-iterable-Keypoint")
    let elems ← iterElems keypoints
    let outer ← elems.mapM (fun kpsoi => do
      let kps ← kpsOf kpsoi
      Except.ok (Value.list kps))
    Except.ok (Value.list outer)

/-- Translated from `invert_normalize_bounding_boxes` (lines 568-623).  Note
this function dispatches on `estimate_normalization_type` directly, with no
whitelist assertion, and its array branch asserts `len(bounding_boxes) == 1`
like the keypoints inverse. -/
def invert_normalize_bounding_boxes (bounding_boxes bounding_boxes_old : Value) :
    Except PyError Value := do
  let ntype ← estimate_normalization_type bounding_boxes_old
  if ntype = "None" then do
    assertProp (bounding_boxes.isNone = true)
    Except.ok bounding_boxes
  else if ntype = "array[float]" ∨ ntype = "array[int]" ∨ ntype = "array[uint]" then do
    let n ← pyLen bounding_boxes
    assertProp (n = 1)
    let aOld ← asArr bounding_boxes_old
    let elems ← iterElems bounding_boxes
    let arrs ← elems.mapM (fun bbsoi => do
      let bbs ← bbsOf bbsoi
      let c ← BoundingBoxesOnImage_to_xyxy_array bbs
      Except.ok (Value.arr c))
    restore_dtype_and_merge (Value.list arrs) aOld.dtype
  else if ntype = "tuple[number,size=4]" then do
    let n ← pyLen bounding_boxes
    assertProp (n = 1)
    let b0 ← pyIndex bounding_boxes 0
    let bbs ← bbsOf b0
    assertProp (bbs.length = 1)
    let bb ← listAt bbs 0
    let c ← bbCorners bb
    Except.ok (Value.tup [c.1, c.2.1, c.2.2.1, c.2.2.2])
  else if ntype = "BoundingBox" then do
    let n ← pyLen bounding_boxes
    assertProp (n = 1)
    let b0 ← pyIndex bounding_boxes 0
    let bbs ← bbsOf b0
    assertProp (bbs.length = 1)
    listAt bbs 0
  else if ntype = "BoundingBoxesOnImage" then do
    let n ← pyLen bounding_boxes
    assertProp (n = 1)
    pyIndex bounding_boxes 0
  else if ntype = "iterable[empty]" then do
    assertProp (bounding_boxes.isNone = true)
    Except.ok (Value.list [])
  else if ntype = "iterable-array[float]" ∨ ntype = "iterable-array[int]"
      ∨ ntype = "iterable-array[uint]" then do
    let r := find_first_nonempty bounding_boxes_old
    let nonempty ← asArr r.1
    let elems ← iterElems bounding_boxes
    let result ← elems.mapM (fun bbsoi => do
      let bbs ← bbsOf bbsoi
      let c ← BoundingBoxesOnImage_to_xyxy_array bbs
      restore_dtype_and_merge (Value.arr c) nonempty.dtype)
    Except.ok (Value.list result)
  else if ntype = "iterable-tuple[number,size=4]" then do
    let n ← pyLen bounding_boxes
    assertProp (n = 1)
    let b0 ← pyIndex bounding_boxes 0
    let bbs ← bbsOf b0
    let tups ← bbs.mapM (fun bb => do
      let c ← bbCorners bb
      Except.ok (Value.tup [c.1, c.2.1, c.2.2.1, c.2.2.2]))
    Except.ok (Value.list tups)
  else if ntype = "iterable-BoundingBox" then do
    let n ← pyLen bounding_boxes
    assertProp (n = 1)
    let b0 ← pyIndex bounding_boxes 0
    let bbs ← bbsOf b0
    Except.ok (Value.list bbs)
  else if ntype = "iterable-BoundingBoxesOnImage" then
    Except.ok bounding_boxes
  else if ntype = "iterable-iterable[empty]" then do
    assertProp (bounding_boxes.isNone = true)
    pySliceAll bounding_boxes_old
  else if ntype = "iterable-iterable-tuple[number,size=4]" then do
    let elems ← iterElems bounding_boxes
    let outer ← elems.mapM (fun bbsoi => do
      let bbs ← bbsOf bbsoi
      let tups ← bbs.mapM (fun bb => do
        let c ← bbCorners bb
        Except.ok (Value.tup [c.1, c.2.1, c.2.2.1, c.2.2.2]))
      Except.ok (Value.list tups))
    Except.ok (Value.list outer)
  else do
    assertProp (ntype = "iterable-iterable-BoundingBox")
    let elems ← iterElems bounding_boxes
    let outer ← elems.mapM (fun bbsoi => do
      let bbs ← bbsOf bbsoi
      Except.ok (Value.list bbs))
    Except.ok (Value.list outer)

/-- Translated from `invert_normalize_polygons` (lines 626-724). -/
def invert_normalize_polygons (polygons polygons_old : Value) : Except PyError Value := do
  let ntype ← estimate_polygons_norm_type polygons_old
  if ntype = "None" then do
    assertProp (polygons.isNone = true)
    Except.ok polygons
  else if ntype = "array[float]" ∨ ntype = "array[int]" ∨ ntype = "array[uint]" then do
    let aOld ← asArr polygons_old
    let elems ← iterElems polygons
    let nested ← elems.mapM (fun psoi => do
      let polys ← polysOf psoi
      let exts ← polys.mapM (fun poly => do
        let e ← polyExterior poly
        Except.ok (Value.arr e))
      Except.ok (Value.list exts))
    restore_dtype_and_merge (Value.list nested) aOld.dtype
  else if ntype = "Polygon" then do
    let n ← pyLen polygons
    assertProp (n = 1)
    let p0 ← pyIndex polygons 0
    let polys ← polysOf p0
    assertProp (polys.length = 1)
    listAt polys 0
  else if ntype = "PolygonsOnImage" then do
    let n ← pyLen polygons
    assertProp (n = 1)
    pyIndex polygons 0
  else if ntype = "iterable[empty]" then do
    assertProp (polygons.isNone = true)
    Except.ok (Value.list [])
  else if ntype = "iterable-array[float]" ∨ ntype = "iterable-array[int]"
      ∨ ntype = "iterable-array[uint]" then do
    let r := find_first_nonempty polygons_old
    let nonempty ← asArr r.1
    let elems ← iterElems polygons
    let result ← elems.mapM (fun psoi => do
      let polys ← polysOf psoi
      let exts ← polys.mapM (fun poly => do
        let e ← polyExterior poly
        Except.ok (Value.arr e))
      restore_dtype_and_merge (Value.list exts) nonempty.dtype)
    Except.ok (Value.list result)
  else if ntype = "iterable-tuple[number,size=2]" then do
    let n ← pyLen polygons
    assertProp (n = 1)
    let p0 ← pyIndex polygons 0
    let polys ← polysOf p0
    assertProp (polys.length = 1)
    let poly ← listAt polys 0
    let ext ← polyExterior poly
    let tups ← (npRows ext).mapM (fun point => do
      let p0v ← npAt point 0
      let p1v ← npAt point 1
      Except.ok (Value.tup [Value.num p0v, Value.num p1v]))
    Except.ok (Value.list tups)
  else if ntype = "iterable-Keypoint" then do
    let n ← pyLen polygons
    assertProp (n = 1)
    let p0 ← pyIndex polygons 0
    let polys ← polysOf p0
    assertProp (polys.length = 1)
    let poly ← listAt polys 0
    let ext ← polyExterior poly
    let kps ← (npRows ext).mapM (fun point => do
      let p0v ← npAt point 0
      let p1v ← npAt point 1
      Except.ok (Value.Keypoint (Value.num p0v) (Value.num p1v)))
    Except.ok (Value.list kps)
  else if ntype = "iterable-Polygon" then do
    let n ← pyLen polygons
    assertProp (n = 1)
    let p0 ← pyIndex polygons 0
    let polys ← polysOf p0
    let nOld ← pyLen polygons_old
    assertProp (polys.length = nOld)
    Except.ok (Value.list polys)
  else if ntype = "iterable-PolygonsOnImage" then
    Except.ok polygons
  else if ntype = "iterable-iterable[empty]" then do
    assertProp (polygons.isNone = true)
    pySliceAll polygons_old
  else if ntype = "iterable-iterable-array[float]" ∨ ntype = "iterable-iterable-array[int]"
      ∨ ntype = "iterable-iterable-array[uint]" then do
    let r := find_first_nonempty polygons_old
    let nonempty ← asArr r.1
    let elems ← iterElems polygons
    let outer ← elems.mapM (fun psoi => do
      let polys ← polysOf psoi
      let inner ← polys.mapM (fun poly => do
        let e ← polyExterior poly
        restore_dtype_and_merge (Value.arr e) nonempty.dtype)
      Except.ok (Value.list inner))
    Except.ok (Value.list outer)
  else if ntype = "iterable-iterable-tuple[number,size=2]" then do
    let n ← pyLen polygons
    assertProp (n = 1)
    let p0 ← pyIndex polygons 0
    let polys ← polysOf p0
    let outer ← polys.mapM (fun polygon => do
      let ext ← polyExterior polygon
      let tups ← (npRows ext).mapM (fun point => do
        let p0v ← npAt point 0
        let p1v ← npAt point 1
        Except.ok (Value.tup [Value.num p0v, Value.num p1v]))
      Except.ok (Value.list tups))
    Except.ok (Value.list outer)
  else if ntype = "iterable-iterable-Keypoint" then do
    let n ← pyLen polygons
    assertProp (n = 1)
    let p0 ← pyIndex polygons 0
    let polys ← polysOf p0
    let outer ← polys.mapM (fun polygon => do
      let ext ← polyExterior polygon
      let kps ← (npRows ext).mapM (fun point => do
        let p0v ← npAt point 0
        let p1v ← npAt point 1
        Except.ok (Value.Keypoint (Value.num p0v) (Value.num p1v)))
      Except.ok (Value.list kps))
    Except.ok (Value.list outer)
  else if ntype = "iterable-iterable-Polygon" then do
    let elems ← iterElems polygons
    let outer ← elems.mapM (fun psoi => do
      let polys ← polysOf psoi
      Except.ok (Value.list polys))
    Except.ok (Value.list outer)
  else if ntype = "iterable-iterable-iterable[empty]" then
    pySliceAll polygons_old
  else if ntype = "iterable-iterable-iterable-tuple[number,size=2]" then do
    let elems ← iterElems polygons
    let outer ← elems.mapM (fun psoi => do
      let polys ← polysOf psoi
      let mid ← polys.mapM (fun polygon => do
        let ext ← polyExterior polygon
        let tups ← (npRows ext).mapM (fun point => do
          let p0v ← npAt point 0
          let p1v ← npAt point 1
          Except.ok (Value.tup [Value.num p0v, Value.num p1v]))
        Except.ok (Value.list tups))
      Except.ok (Value.list mid))
    Except.ok (Value.list outer)
  else do
    assertProp (ntype = "iterable-iterable-iterable-Keypoint")
    let elems ← iterElems polygons
    let outer ← elems.mapM (fun psoi => do
      let polys ← polysOf psoi
      let mid ← polys.mapM (fun polygon => do
        let ext ← polyExterior polygon
        let kps ← (npRows ext).mapM (fun point => do
          let p0v ← npAt point 0
          let p1v ← npAt point 1
          Except.ok (Value.Keypoint (Value.num p0v) (Value.num p1v)))
        Except.ok (Value.list kps))
      Except.ok (Value.list mid))
    Except.ok (Value.list outer)

def uint8 : Dtype := ⟨DKind.u, 8⟩

def int16 : Dtype := ⟨DKind.i, 16⟩

theorem take1_flatten (d : List ℚ) :
    ((List.range d.length).map (fun i => (d.drop i).take 1)).flatten = d := by
  induction d with
  | nil => simp
  | cons a t ih =>
      rw [List.length_cons, List.range_succ_eq_map]
      simp only [List.map_cons, List.map_map, List.flatten_cons, List.drop_zero,
        List.take_succ_cons, List.take_zero, Function.comp_def, List.drop_succ_cons]
      rw [ih]
      rfl

theorem selectLast0_one (d : List ℚ) : selectLast0 1 d = d := by
  unfold selectLast0
  simpa using take1_flatten d

/-- Refinement target for C6, following the spec's words for the child loop
of the Finder: return on the first child result that reports `found = true`;
if no child succeeds, return the failed result with the deepest ancestor
chain among the attempts (ties broken by first-found order), starting from
the enclosing call's own failed result `(None, false, parents)`. -/
def specChildPick (results : List (Value × Bool × List Value))
    (parents : List Value) : Value × Bool × List Value :=
  match results.find? (fun r => r.2.1) with
  | some r => r
  | Option.none =>
      results.foldl
        (fun best r => if r.2.2.length > best.2.2.length then r else best)
        (Value.none, false, parents)

theorem ffnChildren_eq_pick (xs : List Value) (pc : List Value)
    (best : Value × Bool × List Value) :
    ffnChildren xs pc best =
      match (xs.map (fun c => find_first_nonempty c pc)).find? (fun r => r.2.1) with
      | some r => r
      | Option.none =>
          (xs.map (fun c => find_first_nonempty c pc)).foldl
            (fun b r => if r.2.2.length > b.2.2.length then r else b) best := by
  induction xs generalizing best with
  | nil => rfl
  | cons c rest ih =>
      rw [ffnChildren]
      simp only [List.map_cons, List.find?_cons, List.foldl_cons]
      by_cases h : (find_first_nonempty c pc).2.1
      · simp [h]
      · simp only [Bool.not_eq_true] at h
        by_cases hl : (find_first_nonempty c pc).2.2.length > best.2.2.length
        · simp [h, hl, ih]
        · simp [h, hl, ih]

/-- C6: `find_first_nonempty` never raises on any input of the embedding (it
is a total function by construction); on an empty sequence it returns
`found = false` together with the current ancestor chain; on a non-empty
sequence it returns on the first child result reporting `found = true`, and
when no child succeeds it returns the failed result whose ancestor chain is
deepest among the attempts, ties broken by first-found order, as captured by
`specChildPick`. -/
theorem C6_find_first_nonempty_contract :
    (∀ ps, find_first_nonempty (Value.list []) ps = (Value.none, false, ps))
    ∧ (∀ ps, find_first_nonempty (Value.tup []) ps = (Value.none, false, ps))
    ∧ (∀ xs ps, xs ≠ [] →
        find_first_nonempty (Value.list xs) ps
          = specChildPick
              (xs.map (fun c => find_first_nonempty c (ps ++ [Value.list xs]))) ps)
    ∧ (∀ xs ps, xs ≠ [] →
        find_first_nonempty (Value.tup xs) ps
          = specChildPick
              (xs.map (fun c => find_first_nonempty c (ps ++ [Value.tup xs]))) ps) := by
  refine ⟨fun ps => rfl, fun ps => rfl, ?_, ?_⟩
  · intro xs ps h
    rw [find_first_nonempty]
    rw [if_neg (by simpa [List.isEmpty_iff] using h)]
    rw [ffnChildren_eq_pick]
    rfl
  · intro xs ps h
    rw [find_first_nonempty]
    rw [if_neg (by simpa [List.isEmpty_iff] using h)]
    rw [ffnChildren_eq_pick]
    rfl

theorem C6_find_first_nonempty_contract_witness :
    ([Value.none] ≠ ([] : List Value))
    ∧ find_first_nonempty (Value.list [Value.none]) []
        = specChildPick
            ([Value.none].map
              (fun c => find_first_nonempty c ([] ++ [Value.list [Value.none]]))) [] :=
  ⟨List.cons_ne_nil _ _,
    C6_find_first_nonempty_contract.2.2.1 [Value.none] [] (List.cons_ne_nil _ _)⟩

/-- C7: `find_first_nonempty` terminates on every input (the embedding is a
total function, with the self-referential sequence represented by the
distinguished value `Value.selfIter`); on that degenerate sequence, whose
first element is identical to the sequence itself, it returns the sequence
as its own leaf with `found = true` and an unchanged ancestor chain instead
of recursing. -/
theorem C7_self_referential_guard :
    (∀ ps, find_first_nonempty Value.selfIter ps = (Value.selfIter, true, ps))
    ∧ find_first_nonempty Value.selfIter = (Value.selfIter, true, []) :=
  ⟨fun _ => rfl, rfl⟩

theorem arrayTag_ne_iterableEmpty (k : String) :
    ("array[" ++ k ++ "]") ≠ "iterable[empty]" := by
  intro h
  have h2 : ("array[" ++ k ++ "]").data = "iterable[empty]".data := congrArg String.data h
  rw [String.data_append, String.data_append] at h2
  have ha : "array[".data = ['a', 'r', 'r', 'a', 'y', '['] := rfl
  have hb : "iterable[empty]".data
      = ['i', 't', 'e', 'r', 'a', 'b', 'l', 'e', '[', 'e', 'm', 'p', 't', 'y', ']'] := rfl
  rw [ha, hb] at h2
  simp at h2

/-- C10: a numpy array, including one with zero elements, is always its own
finder leaf with `found = true` and an unchanged ancestor chain, so an
ndarray input is classified as the `array[<kind>]` tag determined by its
dtype kind and never as `iterable[empty]`. -/
theorem C10_array_leaf_classification :
    (∀ (a : Arr) (ps : List Value),
        find_first_nonempty (Value.arr a) ps = (Value.arr a, true, ps))
    ∧ (∀ a : Arr, estimate_normalization_type (Value.arr a)
        = Except.ok ("array[" ++ dkindMapStr a.dtype.kind ++ "]"))
    ∧ (∀ a : Arr, estimate_normalization_type (Value.arr a) ≠ Except.ok "iterable[empty]") := by
  refine ⟨fun a ps => rfl, fun a => rfl, fun a h => ?_⟩
  have h2 : Except.ok ("array[" ++ dkindMapStr a.dtype.kind ++ "]")
      = (Except.ok "iterable[empty]" : Except PyError String) := by
    rw [← h]
    rfl
  exact arrayTag_ne_iterableEmpty (dkindMapStr a.dtype.kind) (Except.ok.inj h2)

theorem C10_array_leaf_classification_witness :
    find_first_nonempty (Value.arr (Arr.mk uint8 [0, 2] [])) [Value.list []]
      = (Value.arr (Arr.mk uint8 [0, 2] []), true, [Value.list []])
    ∧ estimate_normalization_type (Value.arr (Arr.mk uint8 [0, 2] []))
      = Except.ok ("array[" ++ dkindMapStr uint8.kind ++ "]")
    ∧ estimate_normalization_type (Value.arr (Arr.mk uint8 [0, 2] []))
      ≠ Except.ok "iterable[empty]" :=
  ⟨C10_array_leaf_classification.1 (Arr.mk uint8 [0, 2] []) [Value.list []],
   C10_array_leaf_classification.2.1 (Arr.mk uint8 [0, 2] []),
   C10_array_leaf_classification.2.2 (Arr.mk uint8 [0, 2] [])⟩

theorem except_bind_ok {α β : Type} {e : Type} (a : α) (f : α → Except e β) :
    (Except.ok a >>= f) = f a := rfl

theorem except_bind_error {α β : Type} {e : Type} (err : e) (f : α → Except e β) :
    ((Except.error err : Except e α) >>= f) = Except.error err := rfl

theorem classifyThenAssertOk (v : Value) (valid : List String) (arg t : String)
    (h : (do
        let type_str ← estimate_normalization_type v
        _assert_is_of_norm_type type_str valid arg
        pure type_str) = (Except.ok t : Except PyError String)) :
    estimate_normalization_type v = Except.ok t := by
  cases e : estimate_normalization_type v with
  | error err =>
      rw [e, except_bind_error] at h
      exact absurd h (by simp)
  | ok s =>
      rw [e, except_bind_ok] at h
      by_cases m : s ∈ valid
      · simp only [_assert_is_of_norm_type, if_pos m] at h
        exact h
      · simp only [_assert_is_of_norm_type, if_neg m] at h
        exact Except.noConfusion h

/-- C9: classification is deterministic and referentially transparent: the
classifier is a pure function of its input (no state argument exists in the
embedding), so two classifications of one value agree; and each per-domain
wrapper returns exactly the unified classifier's tag whenever it succeeds,
so the tag re-derived during the inverse pass (through a wrapper, or, for
bounding boxes, through `estimate_normalization_type` directly) equals the
tag used during the forward pass. -/
theorem C9_classification_referentially_transparent :
    (∀ (v : Value) (t1 t2 : String),
        estimate_normalization_type v = Except.ok t1 →
        estimate_normalization_type v = Except.ok t2 → t1 = t2)
    ∧ (∀ v t, estimate_heatmaps_norm_type v = Except.ok t →
        estimate_normalization_type v = Except.ok t)
    ∧ (∀ v t, estimate_segmaps_norm_type v = Except.ok t →
        estimate_normalization_type v = Except.ok t)
    ∧ (∀ v t, estimate_keypoints_norm_type v = Except.ok t →
        estimate_normalization_type v = Except.ok t)
    ∧ (∀ v t, estimate_bounding_boxes_norm_type v = Except.ok t →
        estimate_normalization_type v = Except.ok t)
    ∧ (∀ v t, estimate_polygons_norm_type v = Except.ok t →
        estimate_normalization_type v = Except.ok t) := by
  refine ⟨?_, ?_, ?_, ?_, ?_, ?_⟩
  · intro v t1 t2 h1 h2
    rw [h1] at h2
    exact Except.ok.inj h2
  · intro v t h
    unfold estimate_heatmaps_norm_type at h
    exact classifyThenAssertOk v _ _ t h
  · intro v t h
    unfold estimate_segmaps_norm_type at h
    exact classifyThenAssertOk v _ _ t h
  · intro v t h
    unfold estimate_keypoints_norm_type at h
    exact classifyThenAssertOk v _ _ t h
  · intro v t h
    unfold estimate_bounding_boxes_norm_type at h
    exact classifyThenAssertOk v _ _ t h
  · intro v t h
    unfold estimate_polygons_norm_type at h
    exact classifyThenAssertOk v _ _ t h

theorem C9_classification_witness :
    ("None" : String) = "None"
    ∧ estimate_normalization_type Value.none = Except.ok "None"
    ∧ estimate_normalization_type (Value.arr (Arr.mk uint8 [1, 2, 2] [1, 2, 3, 4]))
        = Except.ok "array[uint]"
    ∧ estimate_normalization_type (Value.tup [Value.num 1, Value.num 2])
        = Except.ok "tuple[number,size=2]"
    ∧ estimate_normalization_type (Value.tup [Value.num 1, Value.num 2, Value.num 3, Value.num 4])
        = Except.ok "tuple[number,size=4]"
    ∧ estimate_normalization_type (Value.list [Value.Polygon (Arr.mk float32 [0, 2] [])])
        = Except.ok "iterable-Polygon" :=
  ⟨C9_classification_referentially_transparent.1 Value.none "None" "None" rfl rfl,
   C9_classification_referentially_transparent.2.1 Value.none "None" rfl,
   C9_classification_referentially_transparent.2.2.1
     (Value.arr (Arr.mk uint8 [1, 2, 2] [1, 2, 3, 4])) "array[uint]" rfl,
   C9_classification_referentially_transparent.2.2.2.1
     (Value.tup [Value.num 1, Value.num 2]) "tuple[number,size=2]" rfl,
   C9_classification_referentially_transparent.2.2.2.2.1
     (Value.tup [Value.num 1, Value.num 2, Value.num 3, Value.num 4])
     "tuple[number,size=4]" rfl,
   C9_classification_referentially_transparent.2.2.2.2.2
     (Value.list [Value.Polygon (Arr.mk float32 [0, 2] [])]) "iterable-Polygon" rfl⟩

/-- A pair of identical `(10, 10, 3)` literal shape descriptors. -/
def twoShapes10 : Value :=
  Value.list [Value.tup [Value.num 10, Value.num 10, Value.num 3],
              Value.tup [Value.num 10, Value.num 10, Value.num 3]]

/-- C1 (code-bug evidence): for the whitelisted keypoints batch-array input
of outer length 2, the forward normalizer produces two canonical containers,
but `invert_normalize_keypoints` then fails its `assert len(keypoints) == 1`
instead of reproducing the original array, so the round-trip identity of the
claim is broken by the source's own inverse assertion. -/
theorem C1_keypoints_batch_roundtrip_code_bug :
    normalize_keypoints (Value.arr (Arr.mk float32 [2, 1, 2] [1, 2, 3, 4])) twoShapes10
      = Except.ok (Value.list
          [Value.KeypointsOnImage [Value.Keypoint (Value.num 1) (Value.num 2)]
            (Value.tup [Value.num 10, Value.num 10, Value.num 3]),
           Value.KeypointsOnImage [Value.Keypoint (Value.num 3) (Value.num 4)]
            (Value.tup [Value.num 10, Value.num 10, Value.num 3])])
    ∧ invert_normalize_keypoints
        (Value.list
          [Value.KeypointsOnImage [Value.Keypoint (Value.num 1) (Value.num 2)]
            (Value.tup [Value.num 10, Value.num 10, Value.num 3]),
           Value.KeypointsOnImage [Value.Keypoint (Value.num 3) (Value.num 4)]
            (Value.tup [Value.num 10, Value.num 10, Value.num 3])])
        (Value.arr (Arr.mk float32 [2, 1, 2] [1, 2, 3, 4]))
      = Except.error PyError.assertionFailed :=
  ⟨rfl, rfl⟩

/-- C2 (counterexample): `normalize_heatmaps([[], []], shapes=None)` does not
return `None`; the tag `iterable-iterable[empty]` is missing from the
heatmaps whitelist, so the classification assertion raises. -/
theorem C2_nested_empty_heatmaps_counterexample :
    normalize_heatmaps (Value.list [Value.list [], Value.list []]) Value.none
      = Except.error (PyError.assertionError
          ("Got an unknown datatype for argument 'heatmaps'. Expected datatypes were: "
            ++ "None, array[float], HeatmapsOnImage, iterable[empty], "
            ++ "iterable-array[float], iterable-HeatmapsOnImage. "
            ++ "Got: iterable-iterable[empty].")) :=
  rfl

/-- C2 (amended): `normalize_heatmaps([], shapes=None)` returns `None`; but
`normalize_heatmaps([[], []], shapes=None)` is classified as the
nested-empty tag `iterable-iterable[empty]`, which is not in the heatmaps
whitelist, so it raises the unknown-datatype assertion error instead of
returning `None`. -/
theorem C2_empty_heatmaps_amended :
    normalize_heatmaps (Value.list []) Value.none = Except.ok Value.none
    ∧ estimate_normalization_type (Value.list [Value.list [], Value.list []])
        = Except.ok "iterable-iterable[empty]"
    ∧ normalize_heatmaps (Value.list [Value.list [], Value.list []]) Value.none
        = Except.error (PyError.assertionError
            ("Got an unknown datatype for argument 'heatmaps'. Expected datatypes were: "
              ++ "None, array[float], HeatmapsOnImage, iterable[empty], "
              ++ "iterable-array[float], iterable-HeatmapsOnImage. "
              ++ "Got: iterable-iterable[empty].")) :=
  ⟨rfl, rfl, rfl⟩

/-- C3 (code-bug evidence): the bounding-box forward array branch produces
one canonical container per batch row (here 2), but the inverse array branch
asserts the canonical list has length exactly 1 rather than the forward
count, so for a batch-array original input of outer length 2 the asserted
length does not equal what the forward pass produced.  (The heatmaps and
segmentation-map inverses assert against `old.shape[0]` as the claim
states; the keypoints inverse shares this bug, see C1.) -/
theorem C3_bounding_boxes_inverse_length_assert_code_bug :
    normalize_bounding_boxes (Value.arr (Arr.mk float32 [2, 1, 4] [1, 2, 3, 4, 5, 6, 7, 8]))
        twoShapes10
      = Except.ok (Value.list
          [Value.BoundingBoxesOnImage
            [Value.BoundingBox (Value.num 1) (Value.num 2) (Value.num 3) (Value.num 4)]
            (Value.tup [Value.num 10, Value.num 10, Value.num 3]),
           Value.BoundingBoxesOnImage
            [Value.BoundingBox (Value.num 5) (Value.num 6) (Value.num 7) (Value.num 8)]
            (Value.tup [Value.num 10, Value.num 10, Value.num 3])])
    ∧ invert_normalize_bounding_boxes
        (Value.list
          [Value.BoundingBoxesOnImage
            [Value.BoundingBox (Value.num 1) (Value.num 2) (Value.num 3) (Value.num 4)]
            (Value.tup [Value.num 10, Value.num 10, Value.num 3]),
           Value.BoundingBoxesOnImage
            [Value.BoundingBox (Value.num 5) (Value.num 6) (Value.num 7) (Value.num 8)]
            (Value.tup [Value.num 10, Value.num 10, Value.num 3])])
        (Value.arr (Arr.mk float32 [2, 1, 4] [1, 2, 3, 4, 5, 6, 7, 8]))
      = Except.error PyError.assertionFailed :=
  ⟨rfl, rfl⟩

/-- C4: `normalize_keypoints` on a numeric array of shape `(3, 5, 2)` with
only 2 shape descriptors raises the shape-count-mismatch `ValueError` whose
message reports the required count 3 and the actual count 2; with `shapes`
absent it raises the variant message reporting that `shapes` was `None`. -/
theorem C4_shape_count_mismatch_message :
    normalize_keypoints (Value.arr (Arr.mk float32 [3, 5, 2] (List.replicate 30 0)))
        twoShapes10
      = Except.error (PyError.valueError
          (shapesMismatchMsg "array[float]" "List[KeypointsOnImage]" 3 2))
    ∧ normalize_keypoints (Value.arr (Arr.mk float32 [3, 5, 2] (List.replicate 30 0)))
        Value.none
      = Except.error (PyError.valueError
          (shapesNoneMsg "array[float]" "List[KeypointsOnImage]" 3)) :=
  ⟨rfl, rfl⟩

/-- C8: `restore_dtype_and_merge` recurses into nested Python lists
(`restoreList`, post-order), restores the target dtype at array leaves by
the direct cast `restore_dtypes_`, and after leaf restoration stacks a list
whose members are arrays into one block array exactly when all member shapes
are identical, returning the list of restored per-image arrays unchanged
otherwise.  The final conjunct exhibits the cast as direct rather than
clamped: 300 cast to uint8 wraps to 44 instead of saturating to 255. -/
theorem C8_restore_dtype_and_merge_contract :
    (∀ (a : Arr) (d : Dtype),
        restore_dtype_and_merge (Value.arr a) d
          = Except.ok (Value.arr (Arr.mk d a.shape (a.data.map (castValue d)))))
    ∧ (∀ (d : Dtype) (xs ys : List Value) (as : List Arr),
        restoreList xs d = Except.ok ys →
        ys.mapM (fun y =>
          match y with
          | Value.arr a => Except.ok a
          | _ => Except.error PyError.attributeError) = Except.ok as →
        (((as.map Arr.shape).dedup.length = 1 →
            restore_dtype_and_merge (Value.list xs) d
              = Except.ok (Value.arr (restore_dtypes_ (npStack as) d)))
          ∧ ((as.map Arr.shape).dedup.length ≠ 1 →
            restore_dtype_and_merge (Value.list xs) d = Except.ok (Value.list ys))))
    ∧ restore_dtype_and_merge (Value.arr (Arr.mk float32 [1] [300])) uint8
        = Except.ok (Value.arr (Arr.mk uint8 [1] [44])) := by
  refine ⟨fun a d => rfl, ?_, rfl⟩
  intro d xs ys as h1 h2
  constructor
  · intro hdd
    rw [restore_dtype_and_merge, h1, except_bind_ok, h2, except_bind_ok, if_pos hdd]
    rfl
  · intro hdd
    rw [restore_dtype_and_merge, h1, except_bind_ok, h2, except_bind_ok, if_neg hdd]
    rfl

theorem C8_restore_dtype_and_merge_witness :
    restoreList
        [Value.arr (Arr.mk float32 [2] [1, 2]), Value.arr (Arr.mk float32 [2] [3, 4])] int16
      = Except.ok [Value.arr (Arr.mk int16 [2] [1, 2]), Value.arr (Arr.mk int16 [2] [3, 4])]
    ∧ restore_dtype_and_merge
        (Value.list
          [Value.arr (Arr.mk float32 [2] [1, 2]), Value.arr (Arr.mk float32 [2] [3, 4])])
        int16
      = Except.ok (Value.arr (restore_dtypes_
          (npStack [Arr.mk int16 [2] [1, 2], Arr.mk int16 [2] [3, 4]]) int16))
    ∧ restore_dtype_and_merge
        (Value.list
          [Value.arr (Arr.mk float32 [2] [1, 2]), Value.arr (Arr.mk float32 [3] [3, 4, 5])])
        int16
      = Except.ok (Value.list
          [Value.arr (Arr.mk int16 [2] [1, 2]), Value.arr (Arr.mk int16 [3] [3, 4, 5])]) :=
  ⟨rfl,
   (C8_restore_dtype_and_merge_contract.2.1 int16
     [Value.arr (Arr.mk float32 [2] [1, 2]), Value.arr (Arr.mk float32 [2] [3, 4])]
     [Value.arr (Arr.mk int16 [2] [1, 2]), Value.arr (Arr.mk int16 [2] [3, 4])]
     [Arr.mk int16 [2] [1, 2], Arr.mk int16 [2] [3, 4]] rfl rfl).1 (by decide),
   (C8_restore_dtype_and_merge_contract.2.1 int16
     [Value.arr (Arr.mk float32 [2] [1, 2]), Value.arr (Arr.mk float32 [3] [3, 4, 5])]
     [Value.arr (Arr.mk int16 [2] [1, 2]), Value.arr (Arr.mk int16 [3] [3, 4, 5])]
     [Arr.mk int16 [2] [1, 2], Arr.mk int16 [3] [3, 4, 5]] rfl rfl).2 (by decide)⟩

/-- C5 (counterexample): normalizing one 2-d grayscale array does not only
append a trailing channel axis: a leading batch axis is added as well, so a
`(2,3)` image comes back as `(1,2,3,1)` rather than `(2,3,1)`. -/
theorem C5_images_2d_counterexample :
    normalize_images (Value.arr (Arr.mk uint8 [2, 3] [1, 2, 3, 4, 5, 6]))
      = Except.ok (Value.arr (Arr.mk uint8 [1, 2, 3, 1] [1, 2, 3, 4, 5, 6]))
    ∧ ([1, 2, 3, 1] : List Nat) ≠ [2, 3] ++ [1] :=
  ⟨rfl, by decide⟩

theorem select_stride_one (d : List ℚ) (n k : Nat) (hk : k = 1) (h : d.length = n) :
    ((List.range n).map (fun i => (d.drop (i * k)).take 1)).flatten = d := by
  subst hk
  subst h
  simp only [Nat.mul_one]
  exact take1_flatten d

theorem npIndexLast0_concat_one (dt : Dtype) (s : List Nat) (d : List ℚ) :
    npIndexLast0 (Arr.mk dt (s ++ [1]) d) = Except.ok (Arr.mk dt s d) := by
  unfold npIndexLast0
  rw [List.getLast?_concat]
  simp [List.dropLast_concat, selectLast0_one]

theorem invertImages3d (dt : Dtype) (s0 s1 s2 : Nat) (d : List ℚ) :
    invert_normalize_images (Value.arr (Arr.mk dt ([s0, s1, s2] ++ [1]) d))
      (Value.arr (Arr.mk dt [s0, s1, s2] d))
      = Except.ok (Value.arr (Arr.mk dt [s0, s1, s2] d)) := by
  simp only [invert_normalize_images, Arr.ndim, List.length_cons, List.length_nil]
  norm_num
  rw [show asArr (Value.arr (Arr.mk dt [s0, s1, s2, 1] d))
        = Except.ok (Arr.mk dt [s0, s1, s2, 1] d) from rfl, except_bind_ok]
  rw [show shapeAt (Arr.mk dt [s0, s1, s2, 1] d) 3 = Except.ok 1 from rfl, except_bind_ok]
  rw [show (assertProp ((1 : Nat) = 1) : Except PyError Unit) = Except.ok () from rfl,
    except_bind_ok]
  rw [show npIndexLast0 (Arr.mk dt [s0, s1, s2, 1] d)
        = Except.ok (Arr.mk dt [s0, s1, s2] d)
      from npIndexLast0_concat_one dt [s0, s1, s2] d, except_bind_ok]

theorem invertImages2d (dt : Dtype) (s0 s1 : Nat) (d : List ℚ)
    (hlen : d.length = List.prod [s0, s1]) :
    invert_normalize_images (Value.arr (Arr.mk dt [1, s0, s1, 1] d))
      (Value.arr (Arr.mk dt [s0, s1] d))
      = Except.ok (Value.arr (Arr.mk dt [s0, s1] d)) := by
  simp only [invert_normalize_images, Arr.ndim, List.length_cons, List.length_nil]
  norm_num
  rw [show asArr (Value.arr (Arr.mk dt [1, s0, s1, 1] d))
        = Except.ok (Arr.mk dt [1, s0, s1, 1] d) from rfl, except_bind_ok]
  rw [show shapeAt (Arr.mk dt [1, s0, s1, 1] d) 0 = Except.ok 1 from rfl, except_bind_ok]
  rw [show (assertProp ((1 : Nat) = 1) : Except PyError Unit) = Except.ok () from rfl,
    except_bind_ok]
  rw [show shapeAt (Arr.mk dt [1, s0, s1, 1] d) 3 = Except.ok 1 from rfl, except_bind_ok]
  rw [show (assertProp ((1 : Nat) = 1) : Except PyError Unit) = Except.ok () from rfl,
    except_bind_ok]
  have htake : d.take (List.prod [s0, s1, 1]) = d := by
    apply List.take_of_length_le
    rw [hlen]
    simp
  rw [show npIndexFirstLast (Arr.mk dt [1, s0, s1, 1] d)
        = npIndexLast0 (Arr.mk dt [s0, s1, 1] (d.take (List.prod [s0, s1, 1]))) from rfl]
  rw [htake]
  rw [show npIndexLast0 (Arr.mk dt [s0, s1, 1] d) = Except.ok (Arr.mk dt [s0, s1] d)
      from npIndexLast0_concat_one dt [s0, s1] d, except_bind_ok]

theorem imagesRoundtripArr (a : Arr) (hwf : a.wf) :
    ∃ w, normalize_images (Value.arr a) = Except.ok w
      ∧ invert_normalize_images w (Value.arr a) = Except.ok (Value.arr a) := by
  obtain ⟨dt, sh, d⟩ := a
  by_cases h2 : sh.length = 2
  · obtain ⟨s0, s1, rfl⟩ := List.length_eq_two.mp h2
    exact ⟨Value.arr (Arr.mk dt [1, s0, s1, 1] d), rfl, invertImages2d dt s0 s1 d hwf.1⟩
  · by_cases h3 : sh.length = 3
    · obtain ⟨s0, s1, s2, rfl⟩ := List.length_eq_three.mp h3
      exact ⟨Value.arr (Arr.mk dt [s0, s1, s2, 1] d), rfl, invertImages3d dt s0 s1 s2 d⟩
    · refine ⟨Value.arr (Arr.mk dt sh d), ?_, ?_⟩
      · simp [normalize_images, Arr.ndim, h2, h3]
      · simp [invert_normalize_images, Arr.ndim, h2, h3]

theorem normalizeImageElem2d (dt : Dtype) (s0 s1 : Nat) (d : List ℚ) :
    normalizeImageElem (Value.arr (Arr.mk dt [s0, s1] d))
      = Except.ok (Value.arr (Arr.mk dt [s0, s1, 1] d)) := rfl

theorem normalizeImageElem3d (dt : Dtype) (s0 s1 s2 : Nat) (d : List ℚ) :
    normalizeImageElem (Value.arr (Arr.mk dt [s0, s1, s2] d))
      = Except.ok (Value.arr (Arr.mk dt [s0, s1, s2] d)) := rfl

theorem invertImageElem2d (dt : Dtype) (s0 s1 : Nat) (d : List ℚ)
    (hlen : d.length = List.prod [s0, s1]) :
    invertImageElem (Value.arr (Arr.mk dt [s0, s1, 1] d), Value.arr (Arr.mk dt [s0, s1] d))
      = Except.ok (Value.arr (Arr.mk dt [s0, s1] d)) := by
  have he : ((List.range (s0 * s1)).map
      (fun i => (d.drop (i * (1 * 1))).take 1)).flatten = d :=
    select_stride_one d (s0 * s1) (1 * 1) (by norm_num) (by simpa using hlen)
  show Except.ok (Value.arr (Arr.mk dt [s0, s1]
      (((List.range (s0 * s1)).map (fun i => (d.drop (i * (1 * 1))).take 1)).flatten)))
    = Except.ok (Value.arr (Arr.mk dt [s0, s1] d))
  rw [he]

theorem invertImageElem3d (dt : Dtype) (s0 s1 s2 : Nat) (d : List ℚ) :
    invertImageElem (Value.arr (Arr.mk dt [s0, s1, s2] d),
        Value.arr (Arr.mk dt [s0, s1, s2] d))
      = Except.ok (Value.arr (Arr.mk dt [s0, s1, s2] d)) := rfl

theorem imagesIterRoundtrip (xs : List Value)
    (h : ∀ x ∈ xs, ∃ ax : Arr, x = Value.arr ax ∧ ax.wf ∧ (ax.ndim = 2 ∨ ax.ndim = 3)) :
    ∃ ws, normalizeImagesIter xs = Except.ok ws
      ∧ invertImagesIter (ws.zip xs) = Except.ok xs := by
  induction xs with
  | nil => exact ⟨[], rfl, rfl⟩
  | cons x rest ih =>
      obtain ⟨ax, rfl, hwf, hnd⟩ := h x (List.mem_cons_self _ _)
      obtain ⟨ws, hn, hi⟩ := ih (fun y hy => h y (List.mem_cons_of_mem _ hy))
      obtain ⟨dt, sh, d⟩ := ax
      unfold normalizeImagesIter at hn
      unfold invertImagesIter at hi
      cases hnd with
      | inl h2 =>
          obtain ⟨s0, s1, rfl⟩ := List.length_eq_two.mp h2
          refine ⟨Value.arr (Arr.mk dt [s0, s1, 1] d) :: ws, ?_, ?_⟩
          · unfold normalizeImagesIter
            rw [List.mapM_cons, normalizeImageElem2d, except_bind_ok, hn, except_bind_ok]
            rfl
          · unfold invertImagesIter
            rw [List.zip_cons_cons, List.mapM_cons, invertImageElem2d dt s0 s1 d hwf.1,
              except_bind_ok, hi, except_bind_ok]
            rfl
      | inr h3 =>
          obtain ⟨s0, s1, s2, rfl⟩ := List.length_eq_three.mp h3
          refine ⟨Value.arr (Arr.mk dt [s0, s1, s2] d) :: ws, ?_, ?_⟩
          · unfold normalizeImagesIter
            rw [List.mapM_cons, normalizeImageElem3d, except_bind_ok, hn, except_bind_ok]
            rfl
          · unfold invertImagesIter
            rw [List.zip_cons_cons, List.mapM_cons, invertImageElem3d,
              except_bind_ok, hi, except_bind_ok]
            rfl

/-- C5 (amended): `normalize_images` appends a trailing single-channel axis
for a 3-d array and for 2-d per-image elements of an iterable, and leaves
other ranks untouched, but for a single 2-d array it additionally prepends a
batch axis (`(H,W)` becomes `(1,H,W,1)`); `invert_normalize_images` exactly
mirrors these transformations, so the pair round-trips `None`, well-formed
arrays of any rank, and iterables of well-formed 2-d or 3-d per-image
arrays. -/
theorem C5_images_axis_contract_amended :
    (∀ a : Arr, a.ndim = 2 →
        normalize_images (Value.arr a)
          = Except.ok (Value.arr (Arr.mk a.dtype (1 :: (a.shape ++ [1])) a.data)))
    ∧ (∀ a : Arr, a.ndim = 3 →
        normalize_images (Value.arr a)
          = Except.ok (Value.arr (Arr.mk a.dtype (a.shape ++ [1]) a.data)))
    ∧ (∀ a : Arr, a.ndim ≠ 2 → a.ndim ≠ 3 →
        normalize_images (Value.arr a) = Except.ok (Value.arr a))
    ∧ (normalize_images Value.none = Except.ok Value.none
        ∧ invert_normalize_images Value.none Value.none = Except.ok Value.none)
    ∧ (∀ a : Arr, a.wf →
        ∃ w, normalize_images (Value.arr a) = Except.ok w
          ∧ invert_normalize_images w (Value.arr a) = Except.ok (Value.arr a))
    ∧ (∀ xs : List Value,
        (∀ x ∈ xs, ∃ ax : Arr, x = Value.arr ax ∧ ax.wf ∧ (ax.ndim = 2 ∨ ax.ndim = 3)) →
        ∃ ws, normalize_images (Value.list xs) = Except.ok (Value.list ws)
          ∧ invert_normalize_images (Value.list ws) (Value.list xs)
              = Except.ok (Value.list xs)) := by
  refine ⟨?_, ?_, ?_, ⟨rfl, rfl⟩, imagesRoundtripArr, ?_⟩
  · intro a h2
    simp only [normalize_images]
    rw [if_pos h2]
  · intro a h3
    simp only [normalize_images]
    rw [if_neg (by simp [h3]), if_pos h3]
  · intro a h2 h3
    simp only [normalize_images]
    rw [if_neg h2, if_neg h3]
  · intro xs h
    obtain ⟨ws, hn, hi⟩ := imagesIterRoundtrip xs h
    refine ⟨ws, ?_, ?_⟩
    · simp only [normalize_images]
      rw [hn, except_bind_ok]
    · simp only [invert_normalize_images]
      rw [show iterElems (Value.list ws) = Except.ok ws from rfl, except_bind_ok,
        hi, except_bind_ok]

theorem C5_images_axis_contract_witness :
    normalize_images (Value.arr (Arr.mk uint8 [2, 3] [1, 2, 3, 4, 5, 6]))
      = Except.ok (Value.arr (Arr.mk uint8 (1 :: ([2, 3] ++ [1])) [1, 2, 3, 4, 5, 6]))
    ∧ (∃ w, normalize_images (Value.arr (Arr.mk uint8 [2, 3] [1, 2, 3, 4, 5, 6]))
          = Except.ok w
        ∧ invert_normalize_images w (Value.arr (Arr.mk uint8 [2, 3] [1, 2, 3, 4, 5, 6]))
          = Except.ok (Value.arr (Arr.mk uint8 [2, 3] [1, 2, 3, 4, 5, 6])))
    ∧ (∃ ws, normalize_images (Value.list [Value.arr (Arr.mk uint8 [1, 2] [7, 8])])
          = Except.ok (Value.list ws)
        ∧ invert_normalize_images (Value.list ws)
            (Value.list [Value.arr (Arr.mk uint8 [1, 2] [7, 8])])
          = Except.ok (Value.list [Value.arr (Arr.mk uint8 [1, 2] [7, 8])])) :=
  ⟨C5_images_axis_contract_amended.1 (Arr.mk uint8 [2, 3] [1, 2, 3, 4, 5, 6]) rfl,
   C5_images_axis_contract_amended.2.2.2.2.1 (Arr.mk uint8 [2, 3] [1, 2, 3, 4, 5, 6])
     ⟨rfl, by decide⟩,
   C5_images_axis_contract_amended.2.2.2.2.2 [Value.arr (Arr.mk uint8 [1, 2] [7, 8])]
     (by
       intro x hx
       rw [List.mem_singleton] at hx
       subst hx
       exact ⟨Arr.mk uint8 [1, 2] [7, 8], rfl, ⟨rfl, by decide⟩, Or.inl rfl⟩)⟩
